import Mathlib

/-!
# Verification of the qterra live-flight subsystem

Shallow embedding of the flight-tracking core of the repository:

* the live-state normalizer and route resolver of `src/app/api/flights/route.ts`
  (carrier code tables, callsign parsing, search-query construction, the three
  extraction strategies, route assembly, the 6-hour resolution cache), and
* the globe-side geometry/animation code (predictive-arc gating and the
  selected-flight interpolator) of the `GlobeObject` component.

JavaScript numbers are modelled as rationals (`ℚ`) except where a limit
statement needs `ℝ`; JSON values as an inductive `JVal`; JS objects/maps as
association lists with overwrite-on-insert; absent/`undefined`/`null` fields
as `Option`/`JVal.null` with explicit truthiness helpers mirroring JS
coercion.  Regular-expression matching is embedded as explicit left-to-right
scanners, each annotated with the regex it implements.
-/

namespace Qterra

/-! ## JS character/string primitives -/

/-- ASCII uppercase letter, the `[A-Z]` character class. -/
def isUpperAZ (c : Char) : Bool := 'A' ≤ c && c ≤ 'Z'

/-- ASCII lowercase letter. -/
def isLowerAZ (c : Char) : Bool := 'a' ≤ c && c ≤ 'z'

/-- ASCII digit, the `\d` character class. -/
def isDigit09 (c : Char) : Bool := '0' ≤ c && c ≤ '9'

/-- ASCII letter (either case); `[A-Z]` under the `/i` flag. -/
def isLetterAZ (c : Char) : Bool := isUpperAZ c || isLowerAZ c

/-- JS `\w` word character: letter, digit or underscore. -/
def isWordChar (c : Char) : Bool := isLetterAZ c || isDigit09 c || c = '_'

/-- JS `\s` whitespace (the ASCII part: space, tab, LF, CR, VT, FF). -/
def isJsWS (c : Char) : Bool :=
  c = ' ' || c = '\t' || c = '\n' || c = '\r' || c = '\x0b' || c = '\x0c'

/-- `String.prototype.toUpperCase` restricted to ASCII (all inputs here are ASCII). -/
def jsToUpper (s : String) : String := String.mk (s.data.map Char.toUpper)

/-- `s.replace(/\s+/g, "")`: delete every whitespace character. -/
def stripWS (s : String) : String := String.mk (s.data.filter (fun c => !isJsWS c))

/-- `String.prototype.trim`: drop leading and trailing whitespace. -/
def jsTrim (s : String) : String :=
  String.mk (((s.data.dropWhile isJsWS).reverse.dropWhile isJsWS).reverse)

/-- JS truthiness of a possibly-absent string (`undefined`/`null`/`""` are falsy). -/
def optStrTruthy : Option String → Bool
  | none => false
  | some s => !s.isEmpty

/-- JS `a || b` on possibly-absent strings: keep `a` when truthy, else `b`. -/
def jsOrStr (a b : Option String) : Option String :=
  if optStrTruthy a then a else b

/-- JS `a ?? b` on options: only `undefined`/`null` fall through. -/
def jsCoalesce (a b : Option α) : Option α :=
  match a with
  | none => b
  | some x => some x

/-! ## Carrier code tables (`route.ts` lines 170–203)

`ICAO_TO_IATA` is an object literal; we keep its entries in source order. -/

def ICAO_TO_IATA : List (String × String) := [
  ("AAL", "AA"), ("UAL", "UA"), ("DAL", "DL"), ("SWA", "WN"), ("JBU", "B6"),
  ("ASA", "AS"), ("NKS", "NK"), ("FFT", "F9"), ("BAW", "BA"), ("DLH", "LH"),
  ("AFR", "AF"), ("KLM", "KL"), ("EZY", "U2"), ("RYR", "FR"), ("THY", "TK"),
  ("UAE", "EK"), ("QTR", "QR"), ("ETH", "ET"), ("SIA", "SQ"), ("CPA", "CX"),
  ("ANA", "NH"), ("JAL", "JL"), ("QFA", "QF"), ("ACA", "AC"), ("WJA", "WS"),
  ("TAM", "JJ"), ("LAN", "LA"), ("AVA", "AV"), ("CCA", "CA"), ("CES", "MU"),
  ("CSN", "CZ"), ("AIC", "AI"), ("AXB", "IX"), ("IGO", "6E"), ("VOZ", "VA"),
  ("EIN", "EI"), ("IBE", "IB"), ("VLG", "VY"), ("SAS", "SK"), ("FIN", "AY"),
  ("LOT", "LO"), ("TAP", "TP"), ("SVA", "SV"), ("GIA", "GA"), ("MAS", "MH"),
  ("THA", "TG"), ("KAL", "KE"), ("AAR", "OZ"), ("EVA", "BR"), ("RAM", "AT"),
  ("MSR", "MS"), ("MEA", "ME"), ("FDX", "FX"), ("UPS", "5X"), ("GTI", "8C"),
  ("SKW", "OO"), ("RPA", "YX"), ("ENY", "MQ"), ("PDT", "PT"), ("JIA", "OH"),
  ("CPZ", "RP"), ("TCF", "QQ"), ("EDV", "9E")]

/-- The reverse map is built by iterating the forward entries in order and
assigning `IATA_TO_ICAO[iata] = icao`; a later assignment overwrites an
earlier one, which is `List.lookup` over the reversed swapped list. -/
def IATA_TO_ICAO : List (String × String) :=
  (ICAO_TO_IATA.map (fun p => (p.2, p.1))).reverse

def ICAO_TO_NAME : List (String × String) := [
  ("AAL", "American Airlines"), ("UAL", "United Airlines"), ("DAL", "Delta Air Lines"),
  ("SWA", "Southwest Airlines"), ("JBU", "JetBlue"), ("ASA", "Alaska Airlines"),
  ("NKS", "Spirit Airlines"), ("FFT", "Frontier Airlines"), ("BAW", "British Airways"),
  ("DLH", "Lufthansa"), ("AFR", "Air France"), ("KLM", "KLM"), ("THY", "Turkish Airlines"),
  ("UAE", "Emirates"), ("QTR", "Qatar Airways"), ("SIA", "Singapore Airlines"),
  ("CPA", "Cathay Pacific"), ("ANA", "ANA"), ("JAL", "Japan Airlines"),
  ("QFA", "Qantas"), ("ACA", "Air Canada"), ("FDX", "FedEx"), ("UPS", "UPS Airlines"),
  ("SKW", "SkyWest"), ("RPA", "Republic Airways"), ("ENY", "Envoy Air"),
  ("EDV", "Endeavor Air"), ("JIA", "PSA Airlines")]

/-! ## JSON values and the live state normalizer (`route.ts` feed handler, lines 95–127)

The OpenSky payload is `{ time, states: [ [icao24, callsign, ...], ... ] }`;
each state vector is an array of heterogeneous values addressed by position.
`JVal` models one such value; an out-of-range index (JS `undefined`) is
`Option.none` on `List.get?`. -/

inductive JVal where
  | null
  | num (q : ℚ)
  | str (s : String)
  | bool (b : Bool)
deriving DecidableEq

/-- JS `x == null`: true for both `null` and `undefined` (absent index). -/
def jvIsNullish : Option JVal → Bool
  | none => true
  | some .null => true
  | some _ => false

/-- JS `a ?? b` at the `JVal` level: `null`/`undefined` fall through. -/
def jvCoalesce (a b : Option JVal) : Option JVal :=
  if jvIsNullish a then b else a

/-- Read a string-typed feed position with a `?? d` default.  The feed
contract fixes string positions (icao24, callsign, country, squawk); a
non-string value takes the default. -/
def jvStr (v : Option JVal) (d : String) : String :=
  match v with
  | some (.str s) => s
  | _ => d

/-- Read a number-typed feed position with a `?? d` default. -/
def jvNum (v : Option JVal) (d : ℚ) : ℚ :=
  match v with
  | some (.num q) => q
  | _ => d

/-- JS `!!x` double-negation truthiness of a feed value. -/
def jvTruthy : Option JVal → Bool
  | none => false
  | some .null => false
  | some (.bool b) => b
  | some (.num q) => q ≠ 0
  | some (.str s) => !s.isEmpty

/-- Read an optional string position, `s[i] ?? undefined`. -/
def jvStrOpt (v : Option JVal) : Option String :=
  match v with
  | some (.str s) => some s
  | _ => none

/-- The `Flight` interface of `lib/types.ts` (a normalized state vector). -/
structure Flight where
  icao24 : String
  callsign : String
  originCountry : String
  lat : ℚ
  lng : ℚ
  altitude : ℚ
  velocity : ℚ
  heading : ℚ
  verticalRate : ℚ
  onGround : Bool
  lastContact : ℚ
  squawk : Option String
  category : ℚ
deriving DecidableEq

/-- One raw state vector: positions 0 icao24, 1 callsign, 2 origin_country,
3 time_position, 4 last_contact, 5 longitude, 6 latitude, 7 baro_altitude,
8 on_ground, 9 velocity, 10 true_track, 11 vertical_rate, 12 sensors,
13 geo_altitude, 14 squawk, 15 spi, 16 position_source, 17 category. -/
abbrev RawStateVector := List JVal

/-- A raw record is skipped when latitude (`s[6]`) or longitude (`s[5]`)
is `null`/absent: `if (s[6] == null || s[5] == null) continue`. -/
def hasPosition (s : RawStateVector) : Bool :=
  !(jvIsNullish (s[6]?) || jvIsNullish (s[5]?))

/-- The field mapping of the feed handler's push (lines 109–123):
positional extraction with the source's `??` defaults and callsign trim. -/
def toFlight (s : RawStateVector) : Flight where
  icao24 := jvStr (s[0]?) ""
  callsign := jsTrim (jvStr (s[1]?) "")
  originCountry := jvStr (s[2]?) ""
  lat := jvNum (s[6]?) 0
  lng := jvNum (s[5]?) 0
  altitude := jvNum (jvCoalesce (s[7]?) (s[13]?)) 0
  velocity := jvNum (s[9]?) 0
  heading := jvNum (s[10]?) 0
  verticalRate := jvNum (s[11]?) 0
  onGround := jvTruthy (s[8]?)
  lastContact := jvNum (s[4]?) 0
  squawk := jvStrOpt (s[14]?)
  category := jvNum (s[17]?) 0

/-- The normalizer loop: `data.states` is either an array (`some l`) or not
an array (`none`, from `Array.isArray` failing); each positionally valid
record is mapped and pushed in order, others are skipped. -/
def normalizeStates (states : Option (List RawStateVector)) : List Flight :=
  match states with
  | none => []
  | some l => l.filterMap (fun s => if hasPosition s then some (toFlight s) else none)

/-! ## Flight routes (`lib/types.ts` `FlightRoute`) -/

/-- The `FlightRoute` interface; optional fields are `Option`, and `cached`
is absent (`none`) unless the resolver explicitly sets it. -/
structure FlightRoute where
  callsign : String
  airline : Option String
  flightNumber : Option String
  departureAirport : String
  departureCity : Option String
  departureLat : ℚ
  departureLng : ℚ
  arrivalAirport : String
  arrivalCity : Option String
  arrivalLat : ℚ
  arrivalLng : ℚ
  departureTime : Option String
  arrivalTime : Option String
  status : Option String
  cached : Option Bool
deriving DecidableEq

/-- JS truthiness of `route.cached` (`undefined` is falsy): how consumers
observe the cached flag. -/
def FlightRoute.cachedFlag (r : FlightRoute) : Bool :=
  r.cached.getD false

/-! ## Predictive-arc gating (`GlobeObject` flight-arcs effect, part_000 419–426)

```
for (const f of flights) {
  if (f.onGround || !f.velocity || f.velocity < MIN_VELOCITY) continue;
  if (f.icao24 === selectedFlightIcao && flightRoute) continue;
  const distKm = Math.min((f.velocity * PROJECTION_SECONDS) / 1000, MAX_DIST_KM);
  if (distKm < 10) continue;
  ... build arc ...
}
```
with `PROJECTION_SECONDS = 1200`, `MIN_VELOCITY = 30`, `MAX_DIST_KM = 2500`. -/

/-- Projected distance `min(velocity × 1200 / 1000, 2500)` km. -/
def projectedDistKm (f : Flight) : ℚ :=
  min (f.velocity * 1200 / 1000) 2500

/-- Whether the loop body reaches arc construction for flight `f`, given the
currently selected icao24 (or `none`) and the resolved route (or `none`). -/
def drawsPredictiveArc (f : Flight) (selectedFlightIcao : Option String)
    (flightRoute : Option FlightRoute) : Bool :=
  if f.onGround || f.velocity == 0 || f.velocity < 30 then false
  else if selectedFlightIcao == some f.icao24 && flightRoute.isSome then false
  else if projectedDistKm f < 10 then false
  else true

/-! ## Selected-flight interpolator (`GlobeObject` useFrame tick, part_000 562–568)

```
const lerpFactor = 0.06;
anim.currentLat     += (anim.targetLat - anim.currentLat) * lerpFactor;
anim.currentLng     += (anim.targetLng - anim.currentLng) * lerpFactor;
anim.currentHeading += (anim.targetHeading - anim.currentHeading) * lerpFactor;
```
modelled over `ℚ` (exact rational arithmetic; `ℚ` carries the order topology,
so the convergence limit is statable directly). -/

def lerpFactor : ℚ := 6 / 100

/-- One tick of a single smoothed component toward its fixed target. -/
def interpTick (target current : ℚ) : ℚ :=
  current + (target - current) * lerpFactor

/-- `n` ticks of one component. -/
def interpIter (target current : ℚ) : ℕ → ℚ
  | 0 => current
  | n + 1 => interpTick target (interpIter target current n)

/-- The mutable animation state of `selAnimRef` (current and target values;
targets are fixed between data refreshes). -/
structure AnimState where
  currentLat : ℚ
  currentLng : ℚ
  currentHeading : ℚ
  targetLat : ℚ
  targetLng : ℚ
  targetHeading : ℚ

/-- One `useFrame` tick applied to all three components independently. -/
def animTick (a : AnimState) : AnimState :=
  { a with
    currentLat := interpTick a.targetLat a.currentLat
    currentLng := interpTick a.targetLng a.currentLng
    currentHeading := interpTick a.targetHeading a.currentHeading }

/-! ## Airport registry

`/public/data/airports.json` (loaded by `getAirportDb`): IATA code →
`{ lat, lng, city, country }`.  The resolver treats it as an opaque lookup
table, so the embedding is parametric in its contents. -/

/-- One registry record. -/
structure AirportRec where
  lat : ℚ
  lng : ℚ
  city : String
  country : String
deriving DecidableEq

/-- The registry: an association list keyed by IATA code. -/
abbrev Airports := List (String × AirportRec)

/-- JS `airports[code]` truthiness (`undefined` is falsy, objects truthy). -/
def airportKnown (airports : Airports) (code : String) : Bool :=
  (List.lookup code airports).isSome

/-! ## Callsign parsing and query construction (`route.ts` 205–234) -/

/-- Result of `parseCallsign`. -/
structure ParsedCallsign where
  icaoPrefix : String
  flightNum : String
  iataCode : String
  airlineName : String
  clean : String
deriving DecidableEq

/-- `parseCallsign`: strip whitespace, uppercase, then match
`/^([A-Z]{3})(\d+)$/`; on failure all derived fields are empty and
`flightNum` is the whole cleaned string. -/
def parseCallsign (raw : String) : ParsedCallsign :=
  let clean := jsToUpper (stripWS raw)
  match clean.data with
  | c1 :: c2 :: c3 :: rest =>
      if isUpperAZ c1 && isUpperAZ c2 && isUpperAZ c3 &&
          !rest.isEmpty && rest.all isDigit09 then
        let icaoPrefix := String.mk [c1, c2, c3]
        ⟨icaoPrefix, String.mk rest,
          (List.lookup icaoPrefix ICAO_TO_IATA).getD "",
          (List.lookup icaoPrefix ICAO_TO_NAME).getD "", clean⟩
      else ⟨"", clean, "", "", clean⟩
  | _ => ⟨"", clean, "", "", clean⟩

/-- `buildSearchQueries`: carrier-specific queries first (when the prefix
maps to a 2-letter code), then the generic `flight <callsign>` query. -/
def buildSearchQueries (callsign : String) : List String :=
  let p := parseCallsign callsign
  (if !p.iataCode.isEmpty then
    [p.iataCode ++ " " ++ p.flightNum ++ " flight status",
     p.iataCode ++ p.flightNum ++ " flight tracker"]
   else []) ++ ["flight " ++ p.clean]

/-! ## Route assembly (`buildRoute`, `route.ts` 468–503) -/

/-- The optional extras passed to `buildRoute` (defaults to `{}`). -/
structure RouteExtras where
  departureCity : Option String
  arrivalCity : Option String
  airline : Option String
  flightNumber : Option String
  departureTime : Option String
  arrivalTime : Option String
  status : Option String
deriving DecidableEq

/-- The empty extras object `{}`. -/
def RouteExtras.empty : RouteExtras := ⟨none, none, none, none, none, none, none⟩

/-- JS `x || undefined`: normalize a falsy string to `undefined`. -/
def jsOrUndef (o : Option String) : Option String :=
  if optStrTruthy o then o else none

/-- `buildRoute(callsign, departureCode, arrivalCode, airports, extras)`:
merge extracted codes/metadata with registry coordinates and the
carrier-table fallbacks.  Registry misses yield coordinates `0`. -/
def buildRoute (callsign departureCode arrivalCode : String)
    (airports : Airports) (extras : RouteExtras) : FlightRoute :=
  let p := parseCallsign callsign
  let depAirport := List.lookup departureCode airports
  let arrAirport := List.lookup arrivalCode airports
  { callsign := jsToUpper (stripWS callsign)
    airline := jsOrUndef (jsOrStr extras.airline (List.lookup p.icaoPrefix ICAO_TO_NAME))
    flightNumber := jsOrStr extras.flightNumber
      (if !p.iataCode.isEmpty then some (p.iataCode ++ " " ++ p.flightNum) else none)
    departureAirport := departureCode
    departureCity := jsCoalesce extras.departureCity (depAirport.map (·.city))
    departureLat := (depAirport.map (·.lat)).getD 0
    departureLng := (depAirport.map (·.lng)).getD 0
    arrivalAirport := arrivalCode
    arrivalCity := jsCoalesce extras.arrivalCity (arrAirport.map (·.city))
    arrivalLat := (arrAirport.map (·.lat)).getD 0
    arrivalLng := (arrAirport.map (·.lng)).getD 0
    departureTime := extras.departureTime
    arrivalTime := extras.arrivalTime
    status := extras.status
    cached := none }

/-! ## SerpAPI response model and Strategy 1 (`parseSerpApiStructured`, 238–293)

Only the fields the parser reads are modelled; every one is optional, since
the payload is arbitrary JSON. -/

/-- `departure_airport` / `arrival_airport` sub-objects. -/
structure SerpAirportInfo where
  code : Option String
  iata : Option String
  city : Option String
  name : Option String
  time : Option String
deriving DecidableEq

/-- One `flights_results` entry. -/
structure SerpFlightInfo where
  departure_airport : Option SerpAirportInfo
  arrival_airport : Option SerpAirportInfo
  airline : Option String
  flight_number : Option String
  departure_time : Option String
  arrival_time : Option String
  status : Option String
deriving DecidableEq

/-- `data.flights_results` may be an array or a single object
(`Array.isArray(flightsResults) ? flightsResults[0] : flightsResults`). -/
inductive FlightsResultsVal where
  | arr (l : List SerpFlightInfo)
  | single (f : SerpFlightInfo)
deriving DecidableEq

/-- `data.knowledge_graph`; `fromField`/`toField` model the JSON keys
`from`/`to` (reserved words in Lean). -/
structure KnowledgeGraph where
  departure_airport_code : Option String
  from_airport : Option String
  arrival_airport_code : Option String
  to_airport : Option String
  departure_city : Option String
  fromField : Option String
  arrival_city : Option String
  toField : Option String
  airline : Option String
  carrier : Option String
  flight_number : Option String
  title : Option String
  status : Option String
deriving DecidableEq

/-- `data.answer_box`. -/
structure AnswerBox where
  departure_airport : Option String
  origin : Option String
  arrival_airport : Option String
  destination : Option String
  departure_city : Option String
  arrival_city : Option String
  airline : Option String
  flight_number : Option String
  title : Option String
  status : Option String
  flight_status : Option String
deriving DecidableEq

/-- One organic search result (only the fields the parser reads). -/
structure OrganicResult where
  title : Option String
  snippet : Option String
  link : Option String
deriving DecidableEq

/-- The SerpAPI response body, restricted to the fields the code touches. -/
structure SerpData where
  flights_results : Option FlightsResultsVal
  flights : Option FlightsResultsVal
  knowledge_graph : Option KnowledgeGraph
  answer_box : Option AnswerBox
  organic_results : Option (List OrganicResult)
deriving DecidableEq

/-- The nine extraction slots `parseSerpApiStructured` fills. -/
structure StructuredInfo where
  departureCode : Option String
  arrivalCode : Option String
  departureCity : Option String
  arrivalCity : Option String
  airline : Option String
  flightNumber : Option String
  departureTime : Option String
  arrivalTime : Option String
  status : Option String
deriving DecidableEq

/-- `parseSerpApiStructured`: three structured shapes tried in order —
`flights_results ?? flights` (first array element), then `knowledge_graph`
(only when `departureCode` is still falsy), then `answer_box` (ditto).
No registry validation happens here. -/
def parseSerpApiStructured (data : SerpData) : StructuredInfo := Id.run do
  let mut departureCode : Option String := none
  let mut arrivalCode : Option String := none
  let mut departureCity : Option String := none
  let mut arrivalCity : Option String := none
  let mut airline : Option String := none
  let mut flightNumber : Option String := none
  let mut departureTime : Option String := none
  let mut arrivalTime : Option String := none
  let mut status : Option String := none
  -- Path 1: flights_results (Google Flights integration)
  let flightsResults := jsCoalesce data.flights_results data.flights
  match flightsResults with
  | some fr =>
    let info : Option SerpFlightInfo :=
      match fr with
      | .arr l => l.head?
      | .single f => some f
    match info with
    | some i =>
        departureCode := jsCoalesce (i.departure_airport.bind (·.code))
          (i.departure_airport.bind (·.iata))
        arrivalCode := jsCoalesce (i.arrival_airport.bind (·.code))
          (i.arrival_airport.bind (·.iata))
        departureCity := jsCoalesce (i.departure_airport.bind (·.city))
          (i.departure_airport.bind (·.name))
        arrivalCity := jsCoalesce (i.arrival_airport.bind (·.city))
          (i.arrival_airport.bind (·.name))
        airline := i.airline
        flightNumber := i.flight_number
        departureTime := jsCoalesce (i.departure_airport.bind (·.time)) i.departure_time
        arrivalTime := jsCoalesce (i.arrival_airport.bind (·.time)) i.arrival_time
        status := i.status
    | none => pure ()
  | none => pure ()
  -- Path 2: knowledge_graph (only if departureCode is still falsy)
  if !optStrTruthy departureCode then
    match data.knowledge_graph with
    | some kg =>
        departureCode := jsCoalesce kg.departure_airport_code kg.from_airport
        arrivalCode := jsCoalesce kg.arrival_airport_code kg.to_airport
        departureCity := jsCoalesce kg.departure_city kg.fromField
        arrivalCity := jsCoalesce kg.arrival_city kg.toField
        airline := jsCoalesce kg.airline kg.carrier
        flightNumber := jsCoalesce kg.flight_number kg.title
        status := kg.status
    | none => pure ()
  -- Path 3: answer_box (only if departureCode is still falsy)
  if !optStrTruthy departureCode then
    match data.answer_box with
    | some ab =>
        departureCode := jsCoalesce ab.departure_airport ab.origin
        arrivalCode := jsCoalesce ab.arrival_airport ab.destination
        departureCity := ab.departure_city
        arrivalCity := ab.arrival_city
        airline := ab.airline
        flightNumber := jsCoalesce ab.flight_number ab.title
        status := jsCoalesce ab.status ab.flight_status
    | none => pure ()
  return ⟨departureCode, arrivalCode, departureCity, arrivalCity, airline,
    flightNumber, departureTime, arrivalTime, status⟩

/-! ## Regex scanners

Each JS regex used by Strategies 2 and 3 is embedded as an explicit
left-to-right scanner over `List Char`: the scanner tries the pattern at
every start position in order (JS leftmost-match) and the pattern body is
written out with the deterministic residue of the regex's backtracking
(noted per pattern). -/

/-- `\b` to the left of a word character: start of input or a non-word char. -/
def boundaryBefore (prev : Option Char) : Bool :=
  match prev with
  | none => true
  | some c => !isWordChar c

/-- `\b` to the right of a word character: end of input or a non-word char. -/
def boundaryAfter (rest : List Char) : Bool :=
  match rest with
  | [] => true
  | c :: _ => !isWordChar c

/-- Strip an exact literal, returning the residue. -/
def stripLit : List Char → List Char → Option (List Char)
  | [], l => some l
  | _ :: _, [] => none
  | p :: ps, c :: cs => if c = p then stripLit ps cs else none

/-- Strip an exact literal case-insensitively (the `/i` flag). -/
def stripLitCI : List Char → List Char → Option (List Char)
  | [], l => some l
  | _ :: _, [] => none
  | p :: ps, c :: cs => if c.toLower = p.toLower then stripLitCI ps cs else none

/-- First alternative of a literal alternation that strips (JS tries
alternatives left to right). -/
def stripFirstOf (pats : List (List Char)) (l : List Char) : Option (List Char) :=
  match pats with
  | [] => none
  | p :: ps =>
      match stripLit p l with
      | some r => some r
      | none => stripFirstOf ps l

/-- Case-insensitive variant. -/
def stripFirstOfCI (pats : List (List Char)) (l : List Char) : Option (List Char) :=
  match pats with
  | [] => none
  | p :: ps =>
      match stripLitCI p l with
      | some r => some r
      | none => stripFirstOfCI ps l

/-- `[A-Z]{3}`: three uppercase letters, returning them and the residue. -/
def matchUpper3 (l : List Char) : Option (String × List Char) :=
  match l with
  | c1 :: c2 :: c3 :: rest =>
      if isUpperAZ c1 && isUpperAZ c2 && isUpperAZ c3 then
        some (String.mk [c1, c2, c3], rest)
      else none
  | _ => none

/-- `[A-Z]{3}` under `/i`: three letters of either case. -/
def matchLetter3 (l : List Char) : Option (String × List Char) :=
  match l with
  | c1 :: c2 :: c3 :: rest =>
      if isLetterAZ c1 && isLetterAZ c2 && isLetterAZ c3 then
        some (String.mk [c1, c2, c3], rest)
      else none
  | _ => none

/-- `\s+`: at least one whitespace char (greedy; the residue never starts
with whitespace, matching the deterministic munch before a letter class). -/
def wsPlus (l : List Char) : Option (List Char) :=
  match l with
  | c :: cs => if isJsWS c then some (cs.dropWhile isJsWS) else none
  | [] => none

/-- JS `.` excludes the line terminators LF, CR, U+2028, U+2029. -/
def isLineTerm (c : Char) : Bool :=
  c = '\n' || c = '\r' || c.toNat == 8232 || c.toNat == 8233

/-! ### Strategy 2 pattern 1 (`route.ts` 312–313):
`/\b([A-Z]{3})\s*(?:→|->|➝|›|–|—|-|to|\/)\s*([A-Z]{3})\b/` -/

/-- The separator alternation, in the regex's order. -/
def arrowSeps : List (List Char) :=
  [['→'], ['-', '>'], ['➝'], ['›'], ['–'], ['—'], ['-'], ['t', 'o'], ['/']]

/-- Try the arrow pattern anchored at the current position. -/
def tryArrowAt (prev : Option Char) (l : List Char) : Option (String × String) :=
  if !boundaryBefore prev then none
  else
    match matchUpper3 l with
    | none => none
    | some (a, r1) =>
        match stripFirstOf arrowSeps (r1.dropWhile isJsWS) with
        | none => none
        | some r2 =>
            match matchUpper3 (r2.dropWhile isJsWS) with
            | some (b, r3) => if boundaryAfter r3 then some (a, b) else none
            | none => none

/-- First match of the arrow pattern (scans start positions left to right). -/
def scanArrowAux : Option Char → List Char → Option (String × String)
  | _, [] => none
  | prev, c :: cs =>
      match tryArrowAt prev (c :: cs) with
      | some r => some r
      | none => scanArrowAux (some c) cs

/-! ### Strategy 2 pattern 2 (`route.ts` 323–324):
`/(?:from|departing|origin)\s+([A-Z]{3}).*?(?:to|arriving|destination|→)\s+([A-Z]{3})/i` -/

/-- The second keyword and its tail, anchored at the current position. -/
def tryToTail (l : List Char) : Option String :=
  match stripFirstOfCI [['t', 'o'], "arriving".data, "destination".data, ['→']] l with
  | none => none
  | some r1 =>
      match wsPlus r1 with
      | none => none
      | some r2 => (matchLetter3 r2).map (·.1)

/-- The lazy `.*?` gap: earliest second-keyword occurrence, not crossing a
line terminator. -/
def scanToTailAux : List Char → Option String
  | [] => none
  | c :: cs =>
      match tryToTail (c :: cs) with
      | some s => some s
      | none => if isLineTerm c then none else scanToTailAux cs

/-- The whole from/to pattern anchored at the current position. -/
def tryFromToAt (l : List Char) : Option (String × String) :=
  match stripFirstOfCI ["from".data, "departing".data, "origin".data] l with
  | none => none
  | some r1 =>
      match wsPlus r1 with
      | none => none
      | some r2 =>
          match matchLetter3 r2 with
          | none => none
          | some (a, r3) => (scanToTailAux r3).map (fun b => (a, b))

/-- First match of the from/to pattern. -/
def scanFromToAux : List Char → Option (String × String)
  | [] => none
  | c :: cs =>
      match tryFromToAt (c :: cs) with
      | some r => some r
      | none => scanFromToAux cs

/-! ### Strategy 2 pattern 3 (`route.ts` 335–336):
`/\(K([A-Z]{3})\s*[-–—\/]\s*K([A-Z]{3})\)/` -/

/-- The parenthesised 4-letter ICAO pair, anchored at the current position. -/
def tryIcao4At (l : List Char) : Option (String × String) :=
  match l with
  | '(' :: 'K' :: c1 :: c2 :: c3 :: r1 =>
      if isUpperAZ c1 && isUpperAZ c2 && isUpperAZ c3 then
        match r1.dropWhile isJsWS with
        | sep :: r2 =>
            if sep = '-' || sep = '–' || sep = '—' || sep = '/' then
              match r2.dropWhile isJsWS with
              | 'K' :: d1 :: d2 :: d3 :: ')' :: _ =>
                  if isUpperAZ d1 && isUpperAZ d2 && isUpperAZ d3 then
                    some (String.mk [c1, c2, c3], String.mk [d1, d2, d3])
                  else none
              | _ => none
            else none
        | [] => none
      else none
  | _ => none

/-- First match of the ICAO-pair pattern. -/
def scanIcao4Aux : List Char → Option (String × String)
  | [] => none
  | c :: cs =>
      match tryIcao4At (c :: cs) with
      | some r => some r
      | none => scanIcao4Aux cs

/-! ### Strategy 2 pattern 4 (`route.ts` 348–349): the FlightAware URL
`/flightaware\.com\/live\/flight\/[^/]+\/history\/[^/]+\/[^/]+\/K([A-Z]{3})\/K([A-Z]{3})/` -/

/-- `[^/]+\/`: one URL path segment and its trailing slash ( `[^/]+` cannot
cross a slash, so greedy matching is deterministic). -/
def takeSeg (l : List Char) : Option (List Char) :=
  let seg := l.takeWhile (· ≠ '/')
  if seg.isEmpty then none
  else
    match l.drop seg.length with
    | '/' :: rest => some rest
    | _ => none

/-- The URL pattern anchored at the current position. -/
def tryFAUrlAt (l : List Char) : Option (String × String) :=
  match stripLit "flightaware.com/live/flight/".data l with
  | none => none
  | some r1 =>
      match takeSeg r1 with
      | none => none
      | some r2 =>
          match stripLit "history/".data r2 with
          | none => none
          | some r3 =>
              match takeSeg r3 with
              | none => none
              | some r4 =>
                  match takeSeg r4 with
                  | none => none
                  | some r5 =>
                      match r5 with
                      | 'K' :: c1 :: c2 :: c3 :: '/' :: 'K' :: d1 :: d2 :: d3 :: _ =>
                          if isUpperAZ c1 && isUpperAZ c2 && isUpperAZ c3 &&
                              isUpperAZ d1 && isUpperAZ d2 && isUpperAZ d3 then
                            some (String.mk [c1, c2, c3], String.mk [d1, d2, d3])
                          else none
                      | _ => none

/-- First match of the URL pattern. -/
def scanFAUrlAux : List Char → Option (String × String)
  | [] => none
  | c :: cs =>
      match tryFAUrlAt (c :: cs) with
      | some r => some r
      | none => scanFAUrlAux cs

/-! ### Global scans: `/\b[A-Z]{3}\b/g` and `/\bK([A-Z]{3})\b/g` -/

/-- All matches of `\b[A-Z]{3}\b`, left to right.  JS resumes the global
scan past each match, but a position inside a match is preceded by an
uppercase (word) character, so its `\b` fails: stepping one character at a
time with a boundary check yields exactly the same match list. -/
def scanAllUpper3Aux (prev : Option Char) : List Char → List String
  | [] => []
  | c :: cs =>
      let tail := scanAllUpper3Aux (some c) cs
      if boundaryBefore prev then
        match cs with
        | c2 :: c3 :: rest =>
            if isUpperAZ c && isUpperAZ c2 && isUpperAZ c3 &&
                boundaryAfter rest then
              String.mk [c, c2, c3] :: tail
            else tail
        | _ => tail
      else tail

/-- All matches of `\bK([A-Z]{3})\b` (the captured 3 letters); the same
one-character stepping argument applies. -/
def scanAllKUpper3Aux (prev : Option Char) : List Char → List String
  | [] => []
  | c :: cs =>
      let tail := scanAllKUpper3Aux (some c) cs
      if boundaryBefore prev && c = 'K' then
        match cs with
        | c1 :: c2 :: c3 :: rest =>
            if isUpperAZ c1 && isUpperAZ c2 && isUpperAZ c3 &&
                boundaryAfter rest then
              String.mk [c1, c2, c3] :: tail
            else tail
        | _ => tail
      else tail

/-- `[...new Set(l)]` with an explicit seen-accumulator: keep the first
occurrence of each element, in order. -/
def dedupFirstAux (seen : List String) : List String → List String
  | [] => []
  | x :: xs =>
      if seen.contains x then dedupFirstAux seen xs
      else x :: dedupFirstAux (x :: seen) xs

/-- `[...new Set(l)]`: deduplicate keeping first occurrences in order. -/
def dedupFirst (l : List String) : List String := dedupFirstAux [] l

/-! ## Strategy 2: `parseOrganicResults` (`route.ts` 301–371) -/

/-- The scanned text of one organic result: `title + " " + snippet`. -/
def organicText (r : OrganicResult) : String :=
  (r.title.getD "") ++ " " ++ (r.snippet.getD "")

/-- Accept a pair only when both codes are in the registry. -/
def validatePair (airports : Airports) (p : String × String) :
    Option (String × String) :=
  if airportKnown airports p.1 && airportKnown airports p.2 then some p else none

/-- The final fallback of one organic result (`route.ts` 360–367): all
`\b[A-Z]{3}\b` matches of the text, filtered to known registry codes; when
at least two remain the first two are taken — without deduplication, so
they may be the same code. -/
def organicKnownSweep (airports : Airports) (text : String) :
    Option (String × String) :=
  match (scanAllUpper3Aux none text.data).filter (airportKnown airports) with
  | a :: b :: _ => some (a, b)
  | _ => none

/-- One organic result: the five extraction patterns in source order, each
validated against the registry before acceptance. -/
def tryOrganicResult (airports : Airports) (r : OrganicResult) :
    Option (String × String) :=
  let text := organicText r
  ((scanArrowAux none text.data).bind (validatePair airports)) <|>
  (((scanFromToAux text.data).map
      (fun p => (jsToUpper p.1, jsToUpper p.2))).bind (validatePair airports)) <|>
  ((scanIcao4Aux text.data).bind (validatePair airports)) <|>
  ((match r.link with
    | some link => if !link.isEmpty then scanFAUrlAux link.data else none
    | none => none).bind (validatePair airports)) <|>
  organicKnownSweep airports text

/-- `parseOrganicResults`: scan the first 8 organic results in order; the
first result whose pattern chain yields a validated pair wins. -/
def parseOrganicResults (data : SerpData) (airports : Airports) :
    Option (String × String) :=
  ((data.organic_results.getD []).take 8).findSome? (tryOrganicResult airports)

/-! ## Strategy 3: FlightAware page parse (`fetchFlightAwarePage`, 375–464)

The fetch outcome is part of the environment; the five HTML parsing
patterns below are the pure body applied to a 2xx response's text. -/

/-- Does the text contain the literal case-insensitively (`[\s\S]*?lit`)? -/
def containsCI (pat : List Char) : List Char → Bool
  | [] => (stripLitCI pat []).isSome
  | c :: cs => (stripLitCI pat (c :: cs)).isSome || containsCI pat cs

/-- FA pattern 1 inner: `\(([A-Z]{3,4})\s*[-–—\/]\s*([A-Z]{3,4})\)` under
`/i`.  A greedy `{3,4}` letter group followed by a non-letter is exactly a
maximal letter run of length 3 or 4 (backtracking to 3 of a 4-run puts a
letter where the separator or `)` must stand, so it never succeeds). -/
def tryParen34 (l : List Char) : Option ((String × String) × List Char) :=
  match l with
  | '(' :: r1 =>
      let run1 := r1.takeWhile isLetterAZ
      if run1.length == 3 || run1.length == 4 then
        match (r1.drop run1.length).dropWhile isJsWS with
        | sep :: r3 =>
            if sep = '-' || sep = '–' || sep = '—' || sep = '/' then
              let r4 := r3.dropWhile isJsWS
              let run2 := r4.takeWhile isLetterAZ
              if run2.length == 3 || run2.length == 4 then
                match r4.drop run2.length with
                | ')' :: r5 => some ((String.mk run1, String.mk run2), r5)
                | _ => none
              else none
            else none
        | [] => none
      else none
  | _ => none

/-- Lazy `[\s\S]*?` to the paren pair, requiring `</title>` (ci) somewhere
after it. -/
def scanParenClose : List Char → Option (String × String)
  | [] => none
  | c :: cs =>
      match tryParen34 (c :: cs) with
      | some (p, rest) =>
          if containsCI "</title>".data rest then some p else scanParenClose cs
      | none => scanParenClose cs

/-- FA pattern 1 anchored at a `<title` occurrence:
`/<title[^>]*>[\s\S]*?\(([A-Z]{3,4})\s*[-–—\/]\s*([A-Z]{3,4})\)[\s\S]*?<\/title>/i`
(`[^>]*>` is the deterministic skip to the first `>`). -/
def tryTitleAt (l : List Char) : Option (String × String) :=
  match stripLitCI "<title".data l with
  | none => none
  | some r1 =>
      match r1.dropWhile (· ≠ '>') with
      | '>' :: r2 => scanParenClose r2
      | _ => none

/-- First match of FA pattern 1. -/
def scanTitleAux : List Char → Option (String × String)
  | [] => none
  | c :: cs =>
      match tryTitleAt (c :: cs) with
      | some r => some r
      | none => scanTitleAux cs

/-- `titleMatch[i].length === 4 && titleMatch[i].startsWith("K")` →
`slice(1)` (`startsWith "K"` written as a first-character test). -/
def stripK4 (s : String) : String :=
  if s.length == 4 && s.data.head? == some 'K' then s.drop 1 else s

/-- `"K?([A-Z]{3})"`-with-closing-quote, no leading `K` consumed. -/
def matchUpper3Quote (l : List Char) : Option String :=
  match l with
  | c1 :: c2 :: c3 :: '"' :: _ =>
      if isUpperAZ c1 && isUpperAZ c2 && isUpperAZ c3 then
        some (String.mk [c1, c2, c3])
      else none
  | _ => none

/-- `K?([A-Z]{3})"`: greedy optional `K` first, backtracking to no-`K`. -/
def matchKOpt3Quote (l : List Char) : Option String :=
  match l with
  | 'K' :: c1 :: c2 :: c3 :: '"' :: _ =>
      if isUpperAZ c1 && isUpperAZ c2 && isUpperAZ c3 then
        some (String.mk [c1, c2, c3])
      else matchUpper3Quote l
  | _ => matchUpper3Quote l

/-- FA pattern 2, JSON alternative, anchored:
`"<key>"\s*:\s*\{\s*"(?:icao|iata)"\s*:\s*"K?([A-Z]{3})"`. -/
def tryJsonKeyIata (key : String) (l : List Char) : Option String :=
  match stripLit ('"' :: key.data ++ ['"']) l with
  | none => none
  | some r1 =>
      match r1.dropWhile isJsWS with
      | ':' :: r2 =>
          match r2.dropWhile isJsWS with
          | '{' :: r3 =>
              match r3.dropWhile isJsWS with
              | '"' :: r4 =>
                  match stripFirstOf ["icao".data, "iata".data] r4 with
                  | some ('"' :: r5) =>
                      match r5.dropWhile isJsWS with
                      | ':' :: r6 =>
                          match r6.dropWhile isJsWS with
                          | '"' :: r7 => matchKOpt3Quote r7
                          | _ => none
                      | _ => none
                  | _ => none
              | _ => none
          | _ => none
      | _ => none

/-- FA pattern 2, attribute alternative, anchored:
`data-<key>="K?([A-Z]{3})"` (the literal includes the opening quote). -/
def tryDataAttr (attr : String) (l : List Char) : Option String :=
  (stripLit attr.data l).bind matchKOpt3Quote

/-- First match of one FA pattern-2 regex (JSON alternative tried first at
each position, as in the alternation). -/
def scanKeyAttrAux (key attr : String) : List Char → Option String
  | [] => none
  | c :: cs =>
      match tryJsonKeyIata key (c :: cs) with
      | some s => some s
      | none =>
          match tryDataAttr attr (c :: cs) with
          | some s => some s
          | none => scanKeyAttrAux key attr cs

/-- `"iata"\s*:\s*"([A-Z]{3})"` anchored, returning code and residue. -/
def tryIataColon (l : List Char) : Option (String × List Char) :=
  match stripLit "\"iata\"".data l with
  | none => none
  | some r1 =>
      match r1.dropWhile isJsWS with
      | ':' :: r2 =>
          match r2.dropWhile isJsWS with
          | '"' :: c1 :: c2 :: c3 :: '"' :: r3 =>
              if isUpperAZ c1 && isUpperAZ c2 && isUpperAZ c3 then
                some (String.mk [c1, c2, c3], r3)
              else none
          | _ => none
      | _ => none

/-- The lazy `[^}]*?"iata"...` gap inside a brace: first `"iata"` match
before the closing `}`. -/
def scanIataInBrace : List Char → Option (String × List Char)
  | [] => none
  | c :: cs =>
      if c = '}' then none
      else
        match tryIataColon (c :: cs) with
        | some r => some r
        | none => scanIataInBrace cs

/-- FA pattern 3, origin block anchored:
`"origin"\s*:\s*\{[^}]*?"iata"\s*:\s*"([A-Z]{3})"[^}]*\}`. -/
def tryOriginBrace (l : List Char) : Option (String × List Char) :=
  match stripLit "\"origin\"".data l with
  | none => none
  | some r1 =>
      match r1.dropWhile isJsWS with
      | ':' :: r2 =>
          match r2.dropWhile isJsWS with
          | '{' :: r3 =>
              match scanIataInBrace r3 with
              | some (code, r4) =>
                  match r4.dropWhile (· ≠ '}') with
                  | '}' :: r5 => some (code, r5)
                  | _ => none
              | none => none
          | _ => none
      | _ => none

/-- FA pattern 3, destination block anchored:
`"destination"\s*:\s*\{[^}]*?"iata"\s*:\s*"([A-Z]{3})"`. -/
def tryDestBrace (l : List Char) : Option String :=
  match stripLit "\"destination\"".data l with
  | none => none
  | some r1 =>
      match r1.dropWhile isJsWS with
      | ':' :: r2 =>
          match r2.dropWhile isJsWS with
          | '{' :: r3 => (scanIataInBrace r3).map (·.1)
          | _ => none
      | _ => none

/-- Lazy `[\s\S]*?` to the destination block. -/
def scanDestAux : List Char → Option String
  | [] => none
  | c :: cs =>
      match tryDestBrace (c :: cs) with
      | some s => some s
      | none => scanDestAux cs

/-- First match of FA pattern 3: an origin block, then a destination block
somewhere after it. -/
def scanJsonBlobAux : List Char → Option (String × String)
  | [] => none
  | c :: cs =>
      match tryOriginBrace (c :: cs) with
      | some (dep, rest) =>
          match scanDestAux rest with
          | some arr => some (dep, arr)
          | none => scanJsonBlobAux cs
      | none => scanJsonBlobAux cs

/-- The five HTML parsing patterns of `fetchFlightAwarePage`, in source
order; each return site validates against the registry; patterns 4 and 5
deduplicate (`new Set`) before taking the first two codes. -/
def parseFlightAwareHtml (html : String) (airports : Airports) :
    Option (String × String) :=
  let hl := html.data
  (match scanTitleAux hl with
   | some (g1, g2) =>
       validatePair airports (stripK4 g1, stripK4 g2)
   | none => none) <|>
  (match scanKeyAttrAux "origin" "data-origin=\"" hl,
        scanKeyAttrAux "destination" "data-destination=\"" hl with
   | some dep, some arr =>
       if !dep.isEmpty && !arr.isEmpty then validatePair airports (dep, arr)
       else none
   | _, _ => none) <|>
  ((scanJsonBlobAux hl).bind (validatePair airports)) <|>
  (match dedupFirst ((scanAllKUpper3Aux none hl).filter (airportKnown airports)) with
   | a :: b :: _ => some (a, b)
   | _ => none) <|>
  (match dedupFirst ((scanAllUpper3Aux none hl).filter (airportKnown airports)) with
   | a :: b :: _ => some (a, b)
   | _ => none)

/-! ## The route resolver (`GET`, `route.ts` 505–589) -/

/-- Outcome of one SerpAPI fetch: a thrown fetch error (caught and logged,
then `break`), a non-2xx response (`continue`), or a parsed JSON body. -/
inductive SerpOutcome where
  | fetchError
  | httpError
  | ok (data : SerpData)

/-- Outcome of the FlightAware page fetch: thrown error (caught, `null`),
non-2xx (`null`), or the HTML text. -/
inductive FAOutcome where
  | fetchError
  | httpError
  | ok (html : String)

/-- The resolver's external world: the configured SerpAPI key (`""` when
unset), the loaded airport registry, and the deterministic outcome of each
external fetch. -/
structure Env where
  apiKey : String
  airports : Airports
  serp : String → SerpOutcome
  fa : FAOutcome

/-- One issued external call, in order (the resolution trace). -/
inductive ExtCall where
  | serpQuery (q : String)
  | faFetch (callsign : String)
deriving DecidableEq

/-- A cache entry: `{ route, expiresAt }` (expiry in unix ms). -/
structure CacheEntry where
  route : FlightRoute
  expiresAt : ℕ
deriving DecidableEq

/-- The in-memory cache `Map<string, CacheEntry>` as an association list;
`Map.set` overwrites. -/
abbrev Cache := List (String × CacheEntry)

/-- `CACHE_TTL_MS = 6 * 60 * 60 * 1000`. -/
def CACHE_TTL_MS : ℕ := 6 * 60 * 60 * 1000

/-- `cache.set(key, entry)`. -/
def cacheSet (c : Cache) (k : String) (e : CacheEntry) : Cache :=
  (k, e) :: c.filter (fun p => p.1 != k)

/-- `cache.get(key)` followed by the freshness check
`cached && Date.now() < cached.expiresAt`. -/
def cacheLookupValid (c : Cache) (k : String) (now : ℕ) : Option CacheEntry :=
  match List.lookup k c with
  | some e => if now < e.expiresAt then some e else none
  | none => none

/-- The resolver's HTTP responses: 400 (missing callsign), 200 with a
route, 404 (all strategies exhausted, echoing the cache key). -/
inductive RouteResponse where
  | badRequest
  | ok (route : FlightRoute)
  | notFound (callsign : String)
deriving DecidableEq

/-- `fetchFlightAwarePage` as seen by the resolver: `null` unless the fetch
returned 2xx and a pattern produced a validated pair.  The returned record's
`status` field is never set by the source, so only the pair is modelled. -/
def fetchFlightAwarePage (env : Env) : Option (String × String) :=
  match env.fa with
  | .ok html => parseFlightAwareHtml html env.airports
  | _ => none

/-- The Strategy-1/2 query loop (`for (const query of queries)`): a thrown
fetch error breaks; `!res.ok` continues with the next query; a parsed body
tries structured extraction then organic parsing, and in either case the
loop ends (`break`) after the first parsed body.  Returns the issued
queries and the route, if any. -/
def tryQueries (env : Env) (callsign : String) :
    List String → List ExtCall × Option FlightRoute
  | [] => ([], none)
  | q :: rest =>
      match env.serp q with
      | .fetchError => ([.serpQuery q], none)
      | .httpError =>
          let (tr, r) := tryQueries env callsign rest
          (.serpQuery q :: tr, r)
      | .ok data =>
          let structured := parseSerpApiStructured data
          if optStrTruthy structured.departureCode &&
              optStrTruthy structured.arrivalCode then
            ([.serpQuery q],
             some (buildRoute callsign (structured.departureCode.getD "")
               (structured.arrivalCode.getD "") env.airports
               ⟨structured.departureCity, structured.arrivalCity,
                structured.airline, structured.flightNumber,
                structured.departureTime, structured.arrivalTime,
                structured.status⟩))
          else
            match parseOrganicResults data env.airports with
            | some (dep, arr) =>
                if !dep.isEmpty && !arr.isEmpty then
                  ([.serpQuery q],
                   some (buildRoute callsign dep arr env.airports RouteExtras.empty))
                else ([.serpQuery q], none)
            | none => ([.serpQuery q], none)

/-- The cache-miss body of the resolver `GET` (everything after the cache
check): Strategy 1/2 only when an API key is configured, then the
FlightAware fetch; a success is stored with expiry `now + CACHE_TTL_MS`;
exhaustion returns 404 and leaves the cache untouched. -/
def resolveFresh (env : Env) (cache : Cache) (callsign cacheKey : String)
    (now : ℕ) : Cache × RouteResponse × List ExtCall :=
  let sr := if env.apiKey.isEmpty then (([], none) : List ExtCall × Option FlightRoute)
            else tryQueries env callsign (buildSearchQueries callsign)
  match sr with
  | (tr1, some route) =>
      (cacheSet cache cacheKey ⟨route, now + CACHE_TTL_MS⟩, .ok route, tr1)
  | (tr1, none) =>
      match fetchFlightAwarePage env with
      | some (dep, arr) =>
          if !dep.isEmpty && !arr.isEmpty then
            let route := buildRoute callsign dep arr env.airports RouteExtras.empty
            (cacheSet cache cacheKey ⟨route, now + CACHE_TTL_MS⟩,
             .ok route, tr1 ++ [.faFetch cacheKey])
          else (cache, .notFound cacheKey, tr1 ++ [.faFetch cacheKey])
      | none => (cache, .notFound cacheKey, tr1 ++ [.faFetch cacheKey])

/-- The cache key: callsign with all whitespace removed, uppercased (the
query parameter is trimmed on arrival first). -/
def routeCacheKey (cs : String) : String := jsToUpper (stripWS (jsTrim cs))

/-- The resolver `GET`: missing/empty callsign → 400; cache hit → the
stored route with `cached: true` and no external calls; otherwise
`resolveFresh`. -/
def routeGET (env : Env) (cache : Cache) (callsignParam : Option String)
    (now : ℕ) : Cache × RouteResponse × List ExtCall :=
  match callsignParam.map jsTrim with
  | none => (cache, .badRequest, [])
  | some callsign =>
      if callsign.isEmpty then (cache, .badRequest, [])
      else
        let cacheKey := jsToUpper (stripWS callsign)
        match cacheLookupValid cache cacheKey now with
        | some e => (cache, .ok { e.route with cached := some true }, [])
        | none => resolveFresh env cache callsign cacheKey now

/-! ## Concrete fixtures (used by counterexamples and witnesses) -/

/-- A two-entry registry with `JFK` and `LAX`. -/
def airportsJfkLax : Airports :=
  [("JFK", ⟨40, -73, "New York", "US"⟩), ("LAX", ⟨34, -118, "Los Angeles", "US"⟩)]

/-- A SerpAPI body whose structured `flights_results` block names the
airports `ZZZ`/`QQQ`, neither of which is in the registry. -/
def serpDataGhost : SerpData :=
  ⟨some (.single ⟨some ⟨some "ZZZ", none, some "Nowhere", none, none⟩,
     some ⟨some "QQQ", none, some "Elsewhere", none, none⟩,
     some "Ghost Air", some "GH 1", none, none, some "On time"⟩),
   none, none, none, none⟩

/-- Environment for the C1 counterexample: API key configured, every
search query answered with `serpDataGhost`, FlightAware unreachable. -/
def envGhost : Env := ⟨"KEY", airportsJfkLax, fun _ => .ok serpDataGhost, .httpError⟩

/-- The route the resolver builds from `serpDataGhost` for callsign
`GHO1`: both airport codes are outside the registry, coordinates `(0,0)`. -/
def ghostRoute : FlightRoute :=
  ⟨"GHO1", some "Ghost Air", some "GH 1", "ZZZ", some "Nowhere", 0, 0,
   "QQQ", some "Elsewhere", 0, 0, none, none, some "On time", none⟩

/-- Environment where every SerpAPI query returns a non-2xx response and
FlightAware is unreachable (the C4 failing input). -/
def envHttpErrors : Env := ⟨"KEY", airportsJfkLax, fun _ => .httpError, .httpError⟩

/-- Environment with no search credential whose FlightAware page titles the
route `(KJFK - KLAX)`. -/
def envFaTitle : Env :=
  ⟨"", airportsJfkLax, fun _ => .httpError,
   .ok "<title>DAL1950 (KJFK - KLAX) Flight Tracking</title>"⟩

/-- The route `envFaTitle` resolves for `DAL1950`. -/
def routeDalJfkLax : FlightRoute :=
  ⟨"DAL1950", some "Delta Air Lines", some "DL 1950", "JFK", some "New York",
   40, -73, "LAX", some "Los Angeles", 34, -118, none, none, none, none⟩

/-- A SerpAPI body whose only organic result's text is `"JFK JFK"` (the C9
counterexample: two occurrences of the same known code). -/
def serpDataDup : SerpData :=
  ⟨none, none, none, none, some [⟨some "JFK JFK", none, none⟩]⟩

end Qterra

namespace Qterra

/-- Helper: `interpIter` at zero. -/
theorem interpIter_zero (t c : ℚ) : interpIter t c 0 = c := by
  simp [interpIter]

/-- Helper: `interpIter` at a successor. -/
theorem interpIter_succ (t c : ℚ) (n : ℕ) :
    interpIter t c (n + 1) = interpTick t (interpIter t c n) := by
  simp [interpIter]

/-- Helper: after one tick the signed offset to the target shrinks by the
exact factor `1 - 0.06 = 47/50`. -/
theorem interpTick_sub_target (t c : ℚ) :
    interpTick t c - t = (47 / 50) * (c - t) := by
  simp only [interpTick, lerpFactor]
  ring

/-- Helper: the offset after `n` ticks is `(47/50)^n` times the initial one. -/
theorem interpIter_sub_target (t c : ℚ) (n : ℕ) :
    interpIter t c n - t = (47 / 50) ^ n * (c - t) := by
  induction n with
  | zero => rw [interpIter_zero]; ring
  | succ n ih =>
      rw [interpIter_succ, interpTick_sub_target, ih, pow_succ]
      ring

/-- Helper: iterating `animTick` acts on each component as `interpIter`. -/
theorem animTick_iterate_components (a : AnimState) (n : ℕ) :
    (animTick^[n] a).currentLat = interpIter a.targetLat a.currentLat n ∧
    (animTick^[n] a).currentLng = interpIter a.targetLng a.currentLng n ∧
    (animTick^[n] a).currentHeading = interpIter a.targetHeading a.currentHeading n ∧
    (animTick^[n] a).targetLat = a.targetLat ∧
    (animTick^[n] a).targetLng = a.targetLng ∧
    (animTick^[n] a).targetHeading = a.targetHeading := by
  induction n with
  | zero => simp [interpIter_zero]
  | succ n ih =>
      obtain ⟨h1, h2, h3, h4, h5, h6⟩ := ih
      rw [Function.iterate_succ_apply']
      refine ⟨?_, ?_, ?_, ?_, ?_, ?_⟩ <;>
        simp [animTick, interpIter_succ, h1, h2, h3, h4, h5, h6]

/-- Helper: the one-component distance facts of C7. -/
theorem interp_converges (t c : ℚ) :
    (∀ n, |interpIter t c (n + 1) - t| ≤ |interpIter t c n - t|) ∧
    (∀ n, |interpIter t c n - t| ≤ |c - t|) ∧
    Filter.Tendsto (fun n => |interpIter t c n - t|) Filter.atTop (nhds 0) := by
  have key : ∀ n, |interpIter t c n - t| = (47 / 50 : ℚ) ^ n * |c - t| := by
    intro n
    rw [interpIter_sub_target, abs_mul, abs_pow,
      abs_of_pos (show (0 : ℚ) < 47 / 50 by norm_num)]
  refine ⟨?_, ?_, ?_⟩
  · intro n
    rw [key, key, pow_succ]
    have h1 : (0 : ℚ) ≤ (47 / 50 : ℚ) ^ n := by positivity
    nlinarith [abs_nonneg (c - t)]
  · intro n
    rw [key]
    have h1 : (47 / 50 : ℚ) ^ n ≤ 1 :=
      pow_le_one₀ (by norm_num) (by norm_num)
    nlinarith [abs_nonneg (c - t), h1]
  · simp only [key]
    have h := tendsto_pow_atTop_nhds_zero_of_lt_one
      (show (0 : ℚ) ≤ 47 / 50 by norm_num) (show (47 / 50 : ℚ) < 1 by norm_num)
    simpa using h.mul_const |c - t|

end Qterra

/-- **C8.** For every entry of the Carrier Code Table (3-letter ICAO prefix →
2-letter IATA code), looking the entry's 2-letter code up in the reverse map
returns the original 3-letter prefix: the forward map is injective and the
overwrite-built reverse map round-trips every entry. -/
theorem carrier_table_roundtrip :
    ∀ p ∈ Qterra.ICAO_TO_IATA,
      List.lookup p.2 Qterra.IATA_TO_ICAO = some p.1 := by
  decide

/-- Concrete witness for C8: the `DAL ↦ DL` entry round-trips. -/
theorem carrier_table_roundtrip_witness :
    List.lookup "DL" Qterra.IATA_TO_ICAO = some "DAL" :=
  carrier_table_roundtrip ("DAL", "DL") (by decide)

/-- Helper: a `filterMap` of a guarded map is `filter` then `map`. -/
theorem filterMap_guard_eq_filter_map {α β : Type} (p : α → Bool) (f : α → β)
    (l : List α) :
    l.filterMap (fun s => if p s then some (f s) else none) =
      (l.filter p).map f := by
  induction l with
  | nil => rfl
  | cons a l ih =>
      by_cases h : p a <;> simp [List.filterMap_cons, List.filter_cons, h, ih]

/-- **C5.** The normalizer drops exactly the records with absent latitude or
longitude and maps the rest in order; positional mapping takes barometric
altitude, falling back to geo-altitude and then 0; velocity, heading,
vertical rate and category default to 0 when absent; the callsign is
whitespace-trimmed; a non-array feed envelope yields an empty result. -/
theorem normalizer_spec :
    Qterra.normalizeStates none = [] ∧
    (∀ l : List Qterra.RawStateVector,
      Qterra.normalizeStates (some l) =
        (l.filter Qterra.hasPosition).map Qterra.toFlight) ∧
    (∀ s : Qterra.RawStateVector,
      Qterra.hasPosition s = false ↔
        (Qterra.jvIsNullish (s[6]?) = true ∨ Qterra.jvIsNullish (s[5]?) = true)) ∧
    (∀ s : Qterra.RawStateVector, ∀ c : String,
      s[1]? = some (.str c) → (Qterra.toFlight s).callsign = Qterra.jsTrim c) ∧
    (∀ s : Qterra.RawStateVector, ∀ a : ℚ,
      s[7]? = some (.num a) → (Qterra.toFlight s).altitude = a) ∧
    (∀ s : Qterra.RawStateVector, ∀ g : ℚ,
      Qterra.jvIsNullish (s[7]?) = true → s[13]? = some (.num g) →
        (Qterra.toFlight s).altitude = g) ∧
    (∀ s : Qterra.RawStateVector,
      Qterra.jvIsNullish (s[7]?) = true → Qterra.jvIsNullish (s[13]?) = true →
        (Qterra.toFlight s).altitude = 0) ∧
    (∀ s : Qterra.RawStateVector,
      Qterra.jvIsNullish (s[9]?) = true → (Qterra.toFlight s).velocity = 0) ∧
    (∀ s : Qterra.RawStateVector,
      Qterra.jvIsNullish (s[10]?) = true → (Qterra.toFlight s).heading = 0) ∧
    (∀ s : Qterra.RawStateVector,
      Qterra.jvIsNullish (s[11]?) = true → (Qterra.toFlight s).verticalRate = 0) ∧
    (∀ s : Qterra.RawStateVector,
      Qterra.jvIsNullish (s[17]?) = true → (Qterra.toFlight s).category = 0) := by
  refine ⟨rfl, ?_, ?_, ?_, ?_, ?_, ?_, ?_, ?_, ?_, ?_⟩
  · intro l
    exact filterMap_guard_eq_filter_map Qterra.hasPosition Qterra.toFlight l
  · intro s
    cases h6 : Qterra.jvIsNullish (s[6]?) <;> cases h5 : Qterra.jvIsNullish (s[5]?) <;>
      simp [Qterra.hasPosition, h6, h5]
  · intro s c h
    simp [Qterra.toFlight, Qterra.jvStr, h]
  · intro s a h
    simp [Qterra.toFlight, Qterra.jvCoalesce, Qterra.jvIsNullish, Qterra.jvNum, h]
  · intro s g h7 h13
    simp [Qterra.toFlight, Qterra.jvCoalesce, Qterra.jvNum, h7, h13]
  · intro s h7 h13
    rcases e : s[13]? with _ | v
    · simp [Qterra.toFlight, Qterra.jvCoalesce, Qterra.jvNum, h7, e]
    · cases v <;>
        simp_all [Qterra.toFlight, Qterra.jvCoalesce, Qterra.jvNum,
          Qterra.jvIsNullish, e]
  · intro s h
    rcases e : s[9]? with _ | v
    · simp [Qterra.toFlight, Qterra.jvNum, e]
    · cases v <;> simp_all [Qterra.toFlight, Qterra.jvNum, Qterra.jvIsNullish, e]
  · intro s h
    rcases e : s[10]? with _ | v
    · simp [Qterra.toFlight, Qterra.jvNum, e]
    · cases v <;> simp_all [Qterra.toFlight, Qterra.jvNum, Qterra.jvIsNullish, e]
  · intro s h
    rcases e : s[11]? with _ | v
    · simp [Qterra.toFlight, Qterra.jvNum, e]
    · cases v <;> simp_all [Qterra.toFlight, Qterra.jvNum, Qterra.jvIsNullish, e]
  · intro s h
    rcases e : s[17]? with _ | v
    · simp [Qterra.toFlight, Qterra.jvNum, e]
    · cases v <;> simp_all [Qterra.toFlight, Qterra.jvNum, Qterra.jvIsNullish, e]

/-- Concrete witness for C5: a record with `baro_altitude = null` and
`geo_altitude = 500` normalizes to altitude 500, and its ` DAL1950 `
callsign is trimmed. -/
theorem normalizer_spec_witness :
    (Qterra.toFlight [Qterra.JVal.str "a1b2c3", Qterra.JVal.str " DAL1950 ",
      Qterra.JVal.str "United States", Qterra.JVal.null, Qterra.JVal.num 100,
      Qterra.JVal.num 7, Qterra.JVal.num 8, Qterra.JVal.null,
      Qterra.JVal.bool false, Qterra.JVal.num 240, Qterra.JVal.num 90,
      Qterra.JVal.null, Qterra.JVal.null, Qterra.JVal.num 500]).altitude = 500 ∧
    (Qterra.toFlight [Qterra.JVal.str "a1b2c3", Qterra.JVal.str " DAL1950 ",
      Qterra.JVal.str "United States", Qterra.JVal.null, Qterra.JVal.num 100,
      Qterra.JVal.num 7, Qterra.JVal.num 8, Qterra.JVal.null,
      Qterra.JVal.bool false, Qterra.JVal.num 240, Qterra.JVal.num 90,
      Qterra.JVal.null, Qterra.JVal.null, Qterra.JVal.num 500]).callsign =
        Qterra.jsTrim " DAL1950 " :=
  ⟨normalizer_spec.2.2.2.2.2.1 _ 500 (by decide) (by decide),
   normalizer_spec.2.2.2.1 _ " DAL1950 " (by decide)⟩

/-- **C6.** A predictive trajectory arc is produced only when the aircraft is
airborne, its velocity is at least 30 m/s and the projected distance
`min(velocity × 1200 / 1000, 2500)` km is at least 10 km; a flight with
velocity below 30 m/s or on the ground never produces one. -/
theorem predictive_arc_gating (f : Qterra.Flight) (sel : Option String)
    (route : Option Qterra.FlightRoute) :
    (Qterra.drawsPredictiveArc f sel route = true →
      f.onGround = false ∧ 30 ≤ f.velocity ∧ 10 ≤ Qterra.projectedDistKm f) ∧
    ((f.velocity < 30 ∨ f.onGround = true) →
      Qterra.drawsPredictiveArc f sel route = false) := by
  constructor
  · intro h
    unfold Qterra.drawsPredictiveArc at h
    split_ifs at h with h1 h2 h3
    simp only [Bool.or_eq_true, beq_iff_eq, decide_eq_true_eq] at h1
    push_neg at h1
    refine ⟨by simpa using h1.1.1, h1.2, ?_⟩
    by_contra hd
    push_neg at hd
    exact h3 hd
  · intro h
    unfold Qterra.drawsPredictiveArc
    rcases h with h | h
    · simp [h]
    · simp [h]

/-- Concrete witness for C6: an airborne 250 m/s flight passes all gates
(yielding the three conditions), and a 5 m/s flight draws no arc. -/
theorem predictive_arc_gating_witness :
    ((⟨"a1b2c3", "DAL1950", "US", 40, -73, 10000, 250, 90, 0, false, 0,
        none, 0⟩ : Qterra.Flight).onGround = false ∧
      30 ≤ (⟨"a1b2c3", "DAL1950", "US", 40, -73, 10000, 250, 90, 0, false, 0,
        none, 0⟩ : Qterra.Flight).velocity ∧
      10 ≤ Qterra.projectedDistKm (⟨"a1b2c3", "DAL1950", "US", 40, -73, 10000,
        250, 90, 0, false, 0, none, 0⟩ : Qterra.Flight)) ∧
    Qterra.drawsPredictiveArc (⟨"d4e5f6", "GND1", "US", 40, -73, 0, 5, 90, 0,
      false, 0, none, 0⟩ : Qterra.Flight) none none = false :=
  ⟨(predictive_arc_gating _ none none).1
      (by norm_num [Qterra.drawsPredictiveArc, Qterra.projectedDistKm, min_def]),
   (predictive_arc_gating _ none none).2 (Or.inl (by norm_num))⟩

/-- **C7.** The interpolator tick `current += (target − current) × 0.06`,
applied independently to lat, lng and heading with fixed targets: for every
starting state the componentwise distance to the target is non-increasing at
every tick, never exceeds its initial magnitude, and tends to 0 as the
number of ticks grows. -/
theorem interpolator_tick_convergence (a : Qterra.AnimState) :
    (∀ n : ℕ,
      |(Qterra.animTick^[n + 1] a).currentLat - a.targetLat| ≤
          |(Qterra.animTick^[n] a).currentLat - a.targetLat| ∧
      |(Qterra.animTick^[n + 1] a).currentLng - a.targetLng| ≤
          |(Qterra.animTick^[n] a).currentLng - a.targetLng| ∧
      |(Qterra.animTick^[n + 1] a).currentHeading - a.targetHeading| ≤
          |(Qterra.animTick^[n] a).currentHeading - a.targetHeading|) ∧
    (∀ n : ℕ,
      |(Qterra.animTick^[n] a).currentLat - a.targetLat| ≤
          |a.currentLat - a.targetLat| ∧
      |(Qterra.animTick^[n] a).currentLng - a.targetLng| ≤
          |a.currentLng - a.targetLng| ∧
      |(Qterra.animTick^[n] a).currentHeading - a.targetHeading| ≤
          |a.currentHeading - a.targetHeading|) ∧
    (Filter.Tendsto (fun n => |(Qterra.animTick^[n] a).currentLat - a.targetLat|)
        Filter.atTop (nhds 0) ∧
      Filter.Tendsto (fun n => |(Qterra.animTick^[n] a).currentLng - a.targetLng|)
        Filter.atTop (nhds 0) ∧
      Filter.Tendsto (fun n => |(Qterra.animTick^[n] a).currentHeading - a.targetHeading|)
        Filter.atTop (nhds 0)) := by
  have eLat : ∀ n, (Qterra.animTick^[n] a).currentLat =
      Qterra.interpIter a.targetLat a.currentLat n :=
    fun n => (Qterra.animTick_iterate_components a n).1
  have eLng : ∀ n, (Qterra.animTick^[n] a).currentLng =
      Qterra.interpIter a.targetLng a.currentLng n :=
    fun n => (Qterra.animTick_iterate_components a n).2.1
  have eHead : ∀ n, (Qterra.animTick^[n] a).currentHeading =
      Qterra.interpIter a.targetHeading a.currentHeading n :=
    fun n => (Qterra.animTick_iterate_components a n).2.2.1
  obtain ⟨m1, b1, t1⟩ := Qterra.interp_converges a.targetLat a.currentLat
  obtain ⟨m2, b2, t2⟩ := Qterra.interp_converges a.targetLng a.currentLng
  obtain ⟨m3, b3, t3⟩ := Qterra.interp_converges a.targetHeading a.currentHeading
  refine ⟨fun n => ⟨?_, ?_, ?_⟩, fun n => ⟨?_, ?_, ?_⟩, ?_, ?_, ?_⟩
  · rw [eLat, eLat]; exact m1 n
  · rw [eLng, eLng]; exact m2 n
  · rw [eHead, eHead]; exact m3 n
  · rw [eLat]; exact b1 n
  · rw [eLng]; exact b2 n
  · rw [eHead]; exact b3 n
  · exact Filter.Tendsto.congr (fun n => by rw [eLat n]) t1
  · exact Filter.Tendsto.congr (fun n => by rw [eLng n]) t2
  · exact Filter.Tendsto.congr (fun n => by rw [eHead n]) t3

/-- **C10.** When the selected aircraft has a resolved route, no predictive
heading arc is built for it (regardless of the gates); predictive arcs for
all other aircraft do not depend on the presence of the resolved route. -/
theorem resolved_route_suppresses_arc (f : Qterra.Flight) (sel : String)
    (r : Qterra.FlightRoute) :
    (sel = f.icao24 →
      Qterra.drawsPredictiveArc f (some sel) (some r) = false) ∧
    (sel ≠ f.icao24 →
      Qterra.drawsPredictiveArc f (some sel) (some r) =
        Qterra.drawsPredictiveArc f (some sel) none) := by
  constructor
  · intro h
    unfold Qterra.drawsPredictiveArc
    split_ifs with h1 h2 h3 <;> try rfl
    exact absurd (by simp [h]) h2
  · intro h
    unfold Qterra.drawsPredictiveArc
    simp [h]

/-- Concrete witness for C10: a fast airborne selected flight with a resolved
`JFK → LAX` route draws no predictive arc, while an unselected twin is
unaffected by that route. -/
theorem resolved_route_suppresses_arc_witness :
    Qterra.drawsPredictiveArc (⟨"a1b2c3", "DAL1950", "US", 40, -73, 10000, 250,
        90, 0, false, 0, none, 0⟩ : Qterra.Flight) (some "a1b2c3")
      (some (⟨"DAL1950", none, some "DL 1950", "JFK", none, 40, -73, "LAX",
        none, 34, -118, none, none, none, none⟩ : Qterra.FlightRoute)) = false ∧
    Qterra.drawsPredictiveArc (⟨"zzz999", "UAL12", "US", 40, -73, 10000, 250,
        90, 0, false, 0, none, 0⟩ : Qterra.Flight) (some "a1b2c3")
      (some (⟨"DAL1950", none, some "DL 1950", "JFK", none, 40, -73, "LAX",
        none, 34, -118, none, none, none, none⟩ : Qterra.FlightRoute)) =
      Qterra.drawsPredictiveArc (⟨"zzz999", "UAL12", "US", 40, -73, 10000, 250,
        90, 0, false, 0, none, 0⟩ : Qterra.Flight) (some "a1b2c3") none :=
  ⟨(resolved_route_suppresses_arc _ "a1b2c3" _).1 rfl,
   (resolved_route_suppresses_arc _ "a1b2c3" _).2 (by decide)⟩

namespace Qterra

/-- Helper: an `Option` alternation hits on the left or on the right. -/
theorem opt_orElse_eq_some {α : Type} (a b : Option α) (x : α)
    (h : (a <|> b) = some x) : a = some x ∨ b = some x := by
  cases a with
  | none => right; simpa using h
  | some v => left; simpa using h

/-- Helper: `validatePair` only accepts registry-known pairs. -/
theorem validatePair_sound (airports : Airports) (p q : String × String)
    (h : validatePair airports p = some q) :
    airportKnown airports q.1 = true ∧ airportKnown airports q.2 = true := by
  unfold validatePair at h
  split_ifs at h with hk
  cases h
  simpa [Bool.and_eq_true] using hk

/-- Helper: the first two entries of a `filter` satisfy the predicate. -/
theorem filter_first_two {α : Type} (l t : List α) (p : α → Bool) (a b : α)
    (h : l.filter p = a :: b :: t) : p a = true ∧ p b = true := by
  have ha : a ∈ l.filter p := by rw [h]; exact List.mem_cons_self _ _
  have hb : b ∈ l.filter p := by
    rw [h]; exact List.mem_cons_of_mem _ (List.mem_cons_self _ _)
  exact ⟨(List.mem_filter.mp ha).2, (List.mem_filter.mp hb).2⟩

/-- Helper: deduplication only keeps elements of the input. -/
theorem dedupFirstAux_sub :
    ∀ (l seen : List String) (x : String), x ∈ dedupFirstAux seen l → x ∈ l := by
  intro l
  induction l with
  | nil => intro seen x hx; simp [dedupFirstAux] at hx
  | cons a as ih =>
      intro seen x hx
      rw [dedupFirstAux] at hx
      split_ifs at hx with hc
      · exact List.mem_cons_of_mem _ (ih seen x hx)
      · rcases List.mem_cons.mp hx with h | h
        · exact h ▸ List.mem_cons_self _ _
        · exact List.mem_cons_of_mem _ (ih (a :: seen) x h)

/-- Helper: the first two entries of a deduplicated filter satisfy the
predicate. -/
theorem dedupFirst_filter_first_two (l t : List String) (p : String → Bool)
    (a b : String) (h : dedupFirst (l.filter p) = a :: b :: t) :
    p a = true ∧ p b = true := by
  have ha : a ∈ dedupFirst (l.filter p) := by rw [h]; exact List.mem_cons_self _ _
  have hb : b ∈ dedupFirst (l.filter p) := by
    rw [h]; exact List.mem_cons_of_mem _ (List.mem_cons_self _ _)
  have ha' := dedupFirstAux_sub (l.filter p) [] a ha
  have hb' := dedupFirstAux_sub (l.filter p) [] b hb
  exact ⟨(List.mem_filter.mp ha').2, (List.mem_filter.mp hb').2⟩

/-- Helper: the known-codes sweep returns registry-known codes. -/
theorem organicKnownSweep_sound (airports : Airports) (text : String)
    (a b : String) (h : organicKnownSweep airports text = some (a, b)) :
    airportKnown airports a = true ∧ airportKnown airports b = true := by
  unfold organicKnownSweep at h
  rcases hf : (scanAllUpper3Aux none text.data).filter (airportKnown airports)
    with _ | ⟨x, _ | ⟨y, t⟩⟩ <;> rw [hf] at h
  · exact absurd h (by simp)
  · exact absurd h (by simp)
  · simp only [Option.some.injEq, Prod.mk.injEq] at h
    obtain ⟨rfl, rfl⟩ := h
    exact filter_first_two _ _ _ _ _ hf

/-- Helper: every pair a single organic result yields is registry-known. -/
theorem tryOrganicResult_sound (airports : Airports) (r : OrganicResult)
    (p : String × String) (h : tryOrganicResult airports r = some p) :
    airportKnown airports p.1 = true ∧ airportKnown airports p.2 = true := by
  unfold tryOrganicResult at h
  rcases opt_orElse_eq_some _ _ _ h with h | h
  · rcases Option.bind_eq_some.mp h with ⟨q, _, hv⟩
    exact validatePair_sound _ _ _ hv
  rcases opt_orElse_eq_some _ _ _ h with h | h
  · rcases Option.bind_eq_some.mp h with ⟨q, _, hv⟩
    exact validatePair_sound _ _ _ hv
  rcases opt_orElse_eq_some _ _ _ h with h | h
  · rcases Option.bind_eq_some.mp h with ⟨q, _, hv⟩
    exact validatePair_sound _ _ _ hv
  rcases opt_orElse_eq_some _ _ _ h with h | h
  · rcases Option.bind_eq_some.mp h with ⟨q, _, hv⟩
    exact validatePair_sound _ _ _ hv
  · exact organicKnownSweep_sound _ _ _ _ h

/-- Helper: every pair Strategy 2 yields is registry-known. -/
theorem parseOrganicResults_sound (data : SerpData) (airports : Airports)
    (p : String × String) (h : parseOrganicResults data airports = some p) :
    airportKnown airports p.1 = true ∧ airportKnown airports p.2 = true := by
  unfold parseOrganicResults at h
  rcases List.exists_of_findSome?_eq_some h with ⟨r, _, hr⟩
  exact tryOrganicResult_sound _ _ _ hr

/-- Helper: every pair the FlightAware HTML parse yields is registry-known. -/
theorem parseFlightAwareHtml_sound (html : String) (airports : Airports)
    (p : String × String) (h : parseFlightAwareHtml html airports = some p) :
    airportKnown airports p.1 = true ∧ airportKnown airports p.2 = true := by
  obtain ⟨p1, p2⟩ := p
  unfold parseFlightAwareHtml at h
  rcases opt_orElse_eq_some _ _ _ h with h | h
  · rcases hs : scanTitleAux html.data with _ | ⟨g1, g2⟩ <;> rw [hs] at h
    · exact absurd h (by simp)
    · exact validatePair_sound _ _ _ h
  rcases opt_orElse_eq_some _ _ _ h with h | h
  · rcases h1 : scanKeyAttrAux "origin" "data-origin=\"" html.data with _ | dep <;>
      rcases h2 : scanKeyAttrAux "destination" "data-destination=\"" html.data
        with _ | arr <;> rw [h1, h2] at h
    · exact absurd h (by simp)
    · exact absurd h (by simp)
    · exact absurd h (by simp)
    · have h' : (if (!dep.isEmpty && !arr.isEmpty) = true then
          validatePair airports (dep, arr) else none) = some (p1, p2) := h
      split_ifs at h' with hne
      exact validatePair_sound _ _ _ h'
  rcases opt_orElse_eq_some _ _ _ h with h | h
  · rcases Option.bind_eq_some.mp h with ⟨q, _, hv⟩
    exact validatePair_sound _ _ _ hv
  rcases opt_orElse_eq_some _ _ _ h with h | h
  · rcases hd : dedupFirst ((scanAllKUpper3Aux none html.data).filter
        (airportKnown airports)) with _ | ⟨x, _ | ⟨y, t⟩⟩ <;> rw [hd] at h
    · exact absurd h (by simp)
    · exact absurd h (by simp)
    · simp only [Option.some.injEq, Prod.mk.injEq] at h
      obtain ⟨rfl, rfl⟩ := h
      exact dedupFirst_filter_first_two _ _ _ _ _ hd
  · rcases hd : dedupFirst ((scanAllUpper3Aux none html.data).filter
        (airportKnown airports)) with _ | ⟨x, _ | ⟨y, t⟩⟩ <;> rw [hd] at h
    · exact absurd h (by simp)
    · exact absurd h (by simp)
    · simp only [Option.some.injEq, Prod.mk.injEq] at h
      obtain ⟨rfl, rfl⟩ := h
      exact dedupFirst_filter_first_two _ _ _ _ _ hd

end Qterra

namespace Qterra

/-- Helper: `buildRoute` never sets the `cached` flag. -/
theorem buildRoute_cached (c d a : String) (ap : Airports) (e : RouteExtras) :
    (buildRoute c d a ap e).cached = none := rfl

/-- Helper: `buildRoute` stores the extracted codes verbatim. -/
theorem buildRoute_codes (c d a : String) (ap : Airports) (e : RouteExtras) :
    (buildRoute c d a ap e).departureAirport = d ∧
    (buildRoute c d a ap e).arrivalAirport = a := ⟨rfl, rfl⟩

/-- Helper: `cache.set` makes the key look up to the new entry. -/
theorem lookup_cacheSet_self (c : Cache) (k : String) (e : CacheEntry) :
    List.lookup k (cacheSet c k e) = some e := by
  simp [cacheSet, List.lookup]

/-- Helper: an entry that misses (absent or expired) at `now` still misses
at any later instant. -/
theorem cacheLookupValid_none_mono (c : Cache) (k : String) (now now' : ℕ)
    (h : cacheLookupValid c k now = none) (hle : now ≤ now') :
    cacheLookupValid c k now' = none := by
  unfold cacheLookupValid at h ⊢
  cases hl : List.lookup k c with
  | none => rfl
  | some e =>
      rw [hl] at h
      have h' : (if now < e.expiresAt then some e else none) = none := h
      show (if now' < e.expiresAt then some e else none) = none
      split_ifs at h' with h1
      split_ifs with h2
      · omega
      · rfl

/-- Helper: a route produced by the query loop has no `cached` flag. -/
theorem tryQueries_some_cached (env : Env) (c : String) :
    ∀ (qs : List String) (tr : List ExtCall) (r : FlightRoute),
      tryQueries env c qs = (tr, some r) → r.cached = none := by
  intro qs
  induction qs with
  | nil => intro tr r h; simp [tryQueries] at h
  | cons q rest ih =>
      intro tr r h
      rw [tryQueries] at h
      cases hs : env.serp q with
      | fetchError => rw [hs] at h; simp at h
      | httpError =>
          rw [hs] at h
          rcases hq : tryQueries env c rest with ⟨tr2, ro⟩
          rw [hq] at h
          simp only [Prod.mk.injEq] at h
          obtain ⟨-, h2⟩ := h
          exact ih tr2 r (by rw [hq, h2])
      | ok data =>
          simp only [hs] at h
          split_ifs at h with hcode
          · simp only [Prod.mk.injEq, Option.some.injEq] at h
            obtain ⟨-, h2⟩ := h
            rw [← h2]
            exact buildRoute_cached _ _ _ _ _
          · rcases ho : parseOrganicResults data env.airports with _ | ⟨dep, arr⟩ <;>
              simp only [ho] at h
            · simp at h
            · split_ifs at h with hne
              · simp only [Prod.mk.injEq, Option.some.injEq] at h
                obtain ⟨-, h2⟩ := h
                rw [← h2]
                exact buildRoute_cached _ _ _ _ _
              · simp at h

/-- Helper: a fresh resolution that succeeds returns a route with no
`cached` flag and stores exactly that route with expiry `now + TTL`. -/
theorem resolveFresh_ok (env : Env) (cache : Cache) (c key : String) (now : ℕ)
    (cache2 : Cache) (r : FlightRoute) (tr : List ExtCall)
    (h : resolveFresh env cache c key now = (cache2, .ok r, tr)) :
    r.cached = none ∧ cache2 = cacheSet cache key ⟨r, now + CACHE_TTL_MS⟩ := by
  rcases hsr : (if env.apiKey.isEmpty then
      (([], none) : List ExtCall × Option FlightRoute)
    else tryQueries env c (buildSearchQueries c)) with ⟨tr1, ro⟩
  simp only [resolveFresh, hsr] at h
  cases ro with
  | some route =>
      simp only [Prod.mk.injEq, RouteResponse.ok.injEq] at h
      obtain ⟨hc, hr, -⟩ := h
      have hcached : route.cached = none := by
        by_cases hk : env.apiKey.isEmpty
        · rw [if_pos hk] at hsr
          simp at hsr
        · rw [if_neg hk] at hsr
          exact tryQueries_some_cached env c _ _ _ hsr
      exact ⟨hr ▸ hcached, by rw [← hc, hr]⟩
  | none =>
      cases hfa : fetchFlightAwarePage env with
      | some pair =>
          obtain ⟨dep, arr⟩ := pair
          simp only [hfa] at h
          split_ifs at h with hne
          · simp only [Prod.mk.injEq, RouteResponse.ok.injEq] at h
            obtain ⟨hc, hr, -⟩ := h
            refine ⟨hr ▸ buildRoute_cached _ _ _ _ _, by rw [← hc, hr]⟩
          · simp at h
      | none => simp [hfa] at h

/-- Helper: a fresh resolution that exhausts every strategy leaves the
cache unchanged, and its outcome (including the trace) does not depend on
the clock. -/
theorem resolveFresh_notFound (env : Env) (cache : Cache) (c key : String)
    (now : ℕ) (cache2 : Cache) (k : String) (tr : List ExtCall)
    (h : resolveFresh env cache c key now = (cache2, .notFound k, tr)) :
    cache2 = cache ∧
    ∀ now' : ℕ, resolveFresh env cache c key now' = (cache, .notFound k, tr) := by
  rcases hsr : (if env.apiKey.isEmpty then
      (([], none) : List ExtCall × Option FlightRoute)
    else tryQueries env c (buildSearchQueries c)) with ⟨tr1, ro⟩
  simp only [resolveFresh, hsr] at h
  cases ro with
  | some route => simp at h
  | none =>
      cases hfa : fetchFlightAwarePage env with
      | some pair =>
          obtain ⟨dep, arr⟩ := pair
          simp only [hfa] at h
          split_ifs at h with hne
          · simp at h
          · simp only [Prod.mk.injEq, RouteResponse.notFound.injEq] at h
            obtain ⟨hc, hk, ht⟩ := h
            constructor
            · exact hc.symm
            · intro now'
              simp only [resolveFresh, hsr, hfa]
              rw [if_neg hne]
              rw [hk] at ht
              rw [hk, ht]
      | none =>
          simp only [hfa, Prod.mk.injEq, RouteResponse.notFound.injEq] at h
          obtain ⟨hc, hk, ht⟩ := h
          constructor
          · exact hc.symm
          · intro now'
            simp only [resolveFresh, hsr, hfa]
            rw [hk] at ht
            rw [hk, ht]

end Qterra

namespace Qterra

/-- Helper: a `200` outcome implies the trimmed callsign was nonempty. -/
theorem routeGET_ok_trim_ne (env : Env) (cache : Cache) (cs : String)
    (now : ℕ) (cache2 : Cache) (r : FlightRoute) (tr : List ExtCall)
    (hrun : routeGET env cache (some cs) now = (cache2, .ok r, tr)) :
    (jsTrim cs).isEmpty = false := by
  by_cases h : (jsTrim cs).isEmpty = true
  · exfalso
    simp only [routeGET, Option.map_some', h, if_true] at hrun
    simp at hrun
  · simpa using h

/-- Helper: a `404` outcome implies the trimmed callsign was nonempty. -/
theorem routeGET_notFound_trim_ne (env : Env) (cache : Cache) (cs k : String)
    (now : ℕ) (cache2 : Cache) (tr : List ExtCall)
    (hrun : routeGET env cache (some cs) now = (cache2, .notFound k, tr)) :
    (jsTrim cs).isEmpty = false := by
  by_cases h : (jsTrim cs).isEmpty = true
  · exfalso
    simp only [routeGET, Option.map_some', h, if_true] at hrun
    simp at hrun
  · simpa using h

/-- Helper: on a cache miss the resolver runs the fresh path. -/
theorem routeGET_miss (env : Env) (cache : Cache) (cs : String) (now : ℕ)
    (hne : (jsTrim cs).isEmpty = false)
    (hmiss : cacheLookupValid cache (routeCacheKey cs) now = none) :
    routeGET env cache (some cs) now =
      resolveFresh env cache (jsTrim cs) (routeCacheKey cs) now := by
  simp only [routeCacheKey] at hmiss ⊢
  simp only [routeGET, Option.map_some', hne, hmiss, Bool.false_eq_true,
    if_false]

/-- Helper: on a valid cache hit the resolver returns the stored route with
`cached: true` and no external calls. -/
theorem routeGET_hit (env : Env) (cache : Cache) (cs : String) (now : ℕ)
    (e : CacheEntry) (hne : (jsTrim cs).isEmpty = false)
    (hhit : cacheLookupValid cache (routeCacheKey cs) now = some e) :
    routeGET env cache (some cs) now =
      (cache, .ok { e.route with cached := some true }, []) := by
  simp only [routeCacheKey] at hhit
  simp only [routeGET, Option.map_some', hne, hhit, Bool.false_eq_true,
    if_false]

/-- Helper: a fresh success with no search credential has registry-known
codes (only the validated FlightAware patterns can supply them). -/
theorem resolveFresh_noKey_ok (env : Env) (cache : Cache) (c key : String)
    (now : ℕ) (cache2 : Cache) (r : FlightRoute) (tr : List ExtCall)
    (hkey : env.apiKey = "")
    (h : resolveFresh env cache c key now = (cache2, .ok r, tr)) :
    airportKnown env.airports r.departureAirport = true ∧
    airportKnown env.airports r.arrivalAirport = true := by
  have hsr : (if env.apiKey.isEmpty then
      (([], none) : List ExtCall × Option FlightRoute)
    else tryQueries env c (buildSearchQueries c)) = ([], none) := by
    rw [hkey]
    rfl
  simp only [resolveFresh, hsr] at h
  cases hfa : fetchFlightAwarePage env with
  | some pair =>
      obtain ⟨dep, arr⟩ := pair
      simp only [hfa] at h
      split_ifs at h with hne
      · simp only [Prod.mk.injEq, RouteResponse.ok.injEq] at h
        obtain ⟨-, hr, -⟩ := h
        have hparse : ∃ html, env.fa = .ok html ∧
            parseFlightAwareHtml html env.airports = some (dep, arr) := by
          unfold fetchFlightAwarePage at hfa
          cases hfo : env.fa with
          | ok html => exact ⟨html, rfl, by rw [hfo] at hfa; exact hfa⟩
          | fetchError => rw [hfo] at hfa; simp at hfa
          | httpError => rw [hfo] at hfa; simp at hfa
        obtain ⟨html, -, hp⟩ := hparse
        have := parseFlightAwareHtml_sound html env.airports (dep, arr) hp
        rw [← hr]
        exact this
      · simp at h
  | none => simp [hfa] at h

end Qterra

/-- **C1 (counterexample).** The claim "every FlightRoute returned by the
resolver has both airport codes in the Airport Registry, regardless of
which extraction strategy supplied them" is false: with a search credential
configured, a structured SerpAPI payload naming `ZZZ → QQQ` produces a
route whose codes are absent from the registry (Strategy A performs no
registry validation before `buildRoute`). -/
theorem route_registry_validation_cex :
    Qterra.routeGET Qterra.envGhost [] (some "GHO1") 0 =
      ([("GHO1", ⟨Qterra.ghostRoute, Qterra.CACHE_TTL_MS⟩)],
       .ok Qterra.ghostRoute, [.serpQuery "flight GHO1"]) ∧
    Qterra.airportKnown Qterra.envGhost.airports
      Qterra.ghostRoute.departureAirport = false ∧
    Qterra.airportKnown Qterra.envGhost.airports
      Qterra.ghostRoute.arrivalAirport = false := by
  refine ⟨?_, by decide, by decide⟩
  decide

/-- **C1 (amended).** Routes whose codes come from organic-result parsing
(Strategy B) or the page fetch (Strategy C) are validated against the
Airport Registry before construction: every pair those parsers yield is
registry-known, and with no search credential configured every freshly
resolved route (`cached` unset) has registry-known codes.  Routes built
from structured search data are constructed without registry validation. -/
theorem route_registry_validation_amended :
    (∀ (data : Qterra.SerpData) (airports : Qterra.Airports) (p : String × String),
      Qterra.parseOrganicResults data airports = some p →
      Qterra.airportKnown airports p.1 = true ∧
      Qterra.airportKnown airports p.2 = true) ∧
    (∀ (html : String) (airports : Qterra.Airports) (p : String × String),
      Qterra.parseFlightAwareHtml html airports = some p →
      Qterra.airportKnown airports p.1 = true ∧
      Qterra.airportKnown airports p.2 = true) ∧
    (∀ (env : Qterra.Env) (cache : Qterra.Cache) (cs : String) (now : ℕ)
      (cache2 : Qterra.Cache) (r : Qterra.FlightRoute) (tr : List Qterra.ExtCall),
      env.apiKey = "" →
      Qterra.routeGET env cache (some cs) now = (cache2, .ok r, tr) →
      r.cached = none →
      Qterra.airportKnown env.airports r.departureAirport = true ∧
      Qterra.airportKnown env.airports r.arrivalAirport = true) := by
  refine ⟨Qterra.parseOrganicResults_sound, Qterra.parseFlightAwareHtml_sound, ?_⟩
  intro env cache cs now cache2 r tr hkey hrun hcached
  have hne := Qterra.routeGET_ok_trim_ne env cache cs now cache2 r tr hrun
  cases hhit : Qterra.cacheLookupValid cache (Qterra.routeCacheKey cs) now with
  | some e =>
      rw [Qterra.routeGET_hit env cache cs now e hne hhit] at hrun
      simp only [Prod.mk.injEq, Qterra.RouteResponse.ok.injEq] at hrun
      obtain ⟨-, hr, -⟩ := hrun
      rw [← hr] at hcached
      simp at hcached
  | none =>
      rw [Qterra.routeGET_miss env cache cs now hne hhit] at hrun
      exact Qterra.resolveFresh_noKey_ok env cache (Qterra.jsTrim cs)
        (Qterra.routeCacheKey cs) now cache2 r tr hkey hrun

/-- Concrete witness for C1 (amended): the organic text
`"Flight from JFK to LAX"` resolves to a pair whose codes are both in the
registry. -/
theorem route_registry_validation_amended_witness :
    Qterra.airportKnown Qterra.airportsJfkLax "JFK" = true ∧
    Qterra.airportKnown Qterra.airportsJfkLax "LAX" = true :=
  route_registry_validation_amended.1
    ⟨none, none, none, none, some [⟨some "Flight from JFK to LAX", none, none⟩]⟩
    Qterra.airportsJfkLax ("JFK", "LAX") (by decide)

/-- **C2.** A successful fresh resolution (a cache miss) returns the route
with the `cached` flag unset (falsy to consumers) and stores exactly that
route under the normalized callsign with expiry `now + 6h`; any later
resolution of a callsign with the same normalized key, before that expiry
and in any environment, returns the identical route content with
`cached = true`, issues no external calls, and leaves the cache unchanged. -/
theorem resolver_cache_roundtrip_spec
    (env env2 : Qterra.Env) (cache cache2 : Qterra.Cache) (cs : String)
    (now : ℕ) (r : Qterra.FlightRoute) (tr : List Qterra.ExtCall)
    (hmiss : Qterra.cacheLookupValid cache (Qterra.routeCacheKey cs) now = none)
    (hrun : Qterra.routeGET env cache (some cs) now = (cache2, .ok r, tr)) :
    r.cached = none ∧
    Qterra.FlightRoute.cachedFlag r = false ∧
    List.lookup (Qterra.routeCacheKey cs) cache2 =
      some ⟨r, now + Qterra.CACHE_TTL_MS⟩ ∧
    ∀ (cs2 : String) (now2 : ℕ),
      Qterra.routeCacheKey cs2 = Qterra.routeCacheKey cs →
      (Qterra.jsTrim cs2).isEmpty = false →
      now2 < now + Qterra.CACHE_TTL_MS →
      Qterra.routeGET env2 cache2 (some cs2) now2 =
        (cache2, .ok { r with cached := some true }, []) := by
  have hne := Qterra.routeGET_ok_trim_ne env cache cs now cache2 r tr hrun
  rw [Qterra.routeGET_miss env cache cs now hne hmiss] at hrun
  obtain ⟨hcached, hc2⟩ := Qterra.resolveFresh_ok env cache (Qterra.jsTrim cs)
    (Qterra.routeCacheKey cs) now cache2 r tr hrun
  have hlook : List.lookup (Qterra.routeCacheKey cs) cache2 =
      some ⟨r, now + Qterra.CACHE_TTL_MS⟩ := by
    rw [hc2]
    exact Qterra.lookup_cacheSet_self _ _ _
  refine ⟨hcached, by simp [Qterra.FlightRoute.cachedFlag, hcached], hlook, ?_⟩
  intro cs2 now2 hkeq hne2 hlt
  have hhit2 : Qterra.cacheLookupValid cache2 (Qterra.routeCacheKey cs2) now2 =
      some ⟨r, now + Qterra.CACHE_TTL_MS⟩ := by
    unfold Qterra.cacheLookupValid
    rw [hkeq, hlook]
    show (if now2 < (⟨r, now + Qterra.CACHE_TTL_MS⟩ : Qterra.CacheEntry).expiresAt
        then some (⟨r, now + Qterra.CACHE_TTL_MS⟩ : Qterra.CacheEntry) else none) =
      some ⟨r, now + Qterra.CACHE_TTL_MS⟩
    exact if_pos hlt
  exact Qterra.routeGET_hit env2 cache2 cs2 now2 _ hne2 hhit2

/-- Concrete witness for C2: `" DAL1950 "` resolved at t=1000 via the
FlightAware title, then `"dal 1950"` looked up at t=5000 returns the same
content with `cached = true`, no external calls, cache unchanged. -/
theorem resolver_cache_roundtrip_spec_witness :
    Qterra.routeGET Qterra.envFaTitle
        [("DAL1950", ⟨Qterra.routeDalJfkLax, 1000 + Qterra.CACHE_TTL_MS⟩)]
        (some "dal 1950") 5000 =
      ([("DAL1950", ⟨Qterra.routeDalJfkLax, 1000 + Qterra.CACHE_TTL_MS⟩)],
       .ok { Qterra.routeDalJfkLax with cached := some true }, []) :=
  (resolver_cache_roundtrip_spec Qterra.envFaTitle Qterra.envFaTitle []
      [("DAL1950", ⟨Qterra.routeDalJfkLax, 1000 + Qterra.CACHE_TTL_MS⟩)]
      " DAL1950 " 1000 Qterra.routeDalJfkLax [.faFetch "DAL1950"]
      (by decide) (by decide)).2.2.2 "dal 1950" 5000 (by decide) (by decide)
      (by decide)

/-- **C3.** When every strategy is exhausted the resolver returns a
terminal 404 and leaves the cache exactly as it was; a repeat lookup of the
same callsign at any later time re-runs the full strategy chain (same
external-call trace) and fails the same way. -/
theorem resolver_notfound_no_negative_cache
    (env : Qterra.Env) (cache : Qterra.Cache) (cs k : String) (now : ℕ)
    (cache2 : Qterra.Cache) (tr : List Qterra.ExtCall)
    (hrun : Qterra.routeGET env cache (some cs) now = (cache2, .notFound k, tr)) :
    cache2 = cache ∧
    ∀ now2 : ℕ, now ≤ now2 →
      Qterra.routeGET env cache (some cs) now2 = (cache, .notFound k, tr) := by
  have hne := Qterra.routeGET_notFound_trim_ne env cache cs k now cache2 tr hrun
  cases hhit : Qterra.cacheLookupValid cache (Qterra.routeCacheKey cs) now with
  | some e =>
      rw [Qterra.routeGET_hit env cache cs now e hne hhit] at hrun
      simp at hrun
  | none =>
      rw [Qterra.routeGET_miss env cache cs now hne hhit] at hrun
      obtain ⟨hc, hall⟩ := Qterra.resolveFresh_notFound env cache
        (Qterra.jsTrim cs) (Qterra.routeCacheKey cs) now cache2 k tr hrun
      refine ⟨hc, fun now2 hle => ?_⟩
      rw [Qterra.routeGET_miss env cache cs now2 hne
        (Qterra.cacheLookupValid_none_mono cache (Qterra.routeCacheKey cs)
          now now2 hhit hle)]
      exact hall now2

/-- Concrete witness for C3: `XYZ999` is unresolvable in `envHttpErrors`;
the 404 leaves the cache empty, and a retry at t=500 re-issues the same
query and page fetch. -/
theorem resolver_notfound_no_negative_cache_witness :
    Qterra.routeGET Qterra.envHttpErrors [] (some "XYZ999") 500 =
      ([], .notFound "XYZ999",
       [.serpQuery "flight XYZ999", .faFetch "XYZ999"]) :=
  (resolver_notfound_no_negative_cache Qterra.envHttpErrors [] "XYZ999"
      "XYZ999" 0 [] [.serpQuery "flight XYZ999", .faFetch "XYZ999"]
      (by decide)).2 500 (by decide)

/-- **C4 (divergence).** The claim (and the comment in the source) says only
the first constructed search query is ever issued; but on a non-2xx SerpAPI
response the loop `continue`s to the next query: with every query answered
HTTP-error, resolving `DAL1950` issues all three constructed queries before
the page fetch. -/
theorem serp_queries_retried_on_http_error :
    Qterra.routeGET Qterra.envHttpErrors [] (some "DAL1950") 0 =
      ([], .notFound "DAL1950",
       [.serpQuery "DL 1950 flight status", .serpQuery "DL1950 flight tracker",
        .serpQuery "flight DAL1950", .faFetch "DAL1950"]) := by
  decide

/-- **C9 (counterexample).** The claim that the last organic fallback only
accepts two distinct codes is false: the text `"JFK JFK"` (matched by no
earlier pattern) yields the pair `(JFK, JFK)` — the filtered match list is
not deduplicated, so departure equals arrival. -/
theorem organic_dup_pair_cex :
    Qterra.parseOrganicResults Qterra.serpDataDup Qterra.airportsJfkLax =
      some ("JFK", "JFK") := by
  decide

/-- **C9 (amended).** The last organic fallback accepts a pair only when the
text contains at least two (not necessarily distinct) `\b[A-Z]{3}\b`
occurrences that are known registry codes; both accepted codes exist in the
registry and both occur in the text, but departure may equal arrival. -/
theorem organic_last_pattern_validated (airports : Qterra.Airports)
    (text : String) (a b : String)
    (h : Qterra.organicKnownSweep airports text = some (a, b)) :
    Qterra.airportKnown airports a = true ∧
    Qterra.airportKnown airports b = true ∧
    a ∈ Qterra.scanAllUpper3Aux none text.data ∧
    b ∈ Qterra.scanAllUpper3Aux none text.data := by
  obtain ⟨h1, h2⟩ := Qterra.organicKnownSweep_sound airports text a b h
  unfold Qterra.organicKnownSweep at h
  rcases hf : (Qterra.scanAllUpper3Aux none text.data).filter
      (Qterra.airportKnown airports) with _ | ⟨x, _ | ⟨y, t⟩⟩ <;> rw [hf] at h
  · exact absurd h (by simp)
  · exact absurd h (by simp)
  · simp only [Option.some.injEq, Prod.mk.injEq] at h
    obtain ⟨h3, h4⟩ := h
    have ha : a ∈ (Qterra.scanAllUpper3Aux none text.data).filter
        (Qterra.airportKnown airports) := by
      rw [hf, ← h3]; exact List.mem_cons_self _ _
    have hb : b ∈ (Qterra.scanAllUpper3Aux none text.data).filter
        (Qterra.airportKnown airports) := by
      rw [hf, ← h4]; exact List.mem_cons_of_mem _ (List.mem_cons_self _ _)
    exact ⟨h1, h2, (List.mem_filter.mp ha).1, (List.mem_filter.mp hb).1⟩

/-- Concrete witness for C9 (amended): the sweep on `"JFK LAX"` yields
registry-known codes that occur in the text. -/
theorem organic_last_pattern_validated_witness :
    Qterra.airportKnown Qterra.airportsJfkLax "JFK" = true ∧
    Qterra.airportKnown Qterra.airportsJfkLax "LAX" = true ∧
    "JFK" ∈ Qterra.scanAllUpper3Aux none "JFK LAX".data ∧
    "LAX" ∈ Qterra.scanAllUpper3Aux none "JFK LAX".data :=
  organic_last_pattern_validated Qterra.airportsJfkLax "JFK LAX" "JFK" "LAX"
    (by decide)
